import Mathlib

/-!
# libptp++ : the PTP transaction engine of `CameraBase`

A shallow embedding of `src/CameraBase.cpp` (with the declarations of
`src/CameraBase.hpp` and `src/PTPContainer.hpp`) and the properties of its
transaction engine and of its connection handling (`open`, `close`).

Conventions of the embedding.

* Machine integers are `Nat` / `Int`; a `uint32_t` value is kept below `2^32`
  by an explicit `% 2^32`, and the conversions between `uint32_t` and `int`
  are the functions `to_int` and `to_uint32`.
* A pointer argument that may be `NULL` is an `Option`: `none` is `NULL`,
  `some c` is a pointer to an object whose current contents are `c`.
* A C++ function that mutates objects and may throw returns a record with the
  final contents of everything it can touch and a field `thrown`
  (`none` = the function returned normally).  The state reached at the moment
  of a `throw` is kept, since the mutations made before it are visible to the
  caller.
* libusb is the environment.  It is a script of replies (`USB.in_script`,
  `USB.out_script`) and a chronological `trace` of the transfers requested.
* `new unsigned char[n]` yields memory whose contents are not determined by
  the program; they are supplied by the environment (`USB.uninit`).
  Allocation itself is taken to succeed.
-/

set_option maxRecDepth 20000

namespace PTP

/-! ## Data model -/

/-- Values thrown by `CameraBase`.  The `ERR_` names are the ones used in
`CameraBase.cpp` (they are declared in `libptp++.hpp`).  `unpack_failed`
stands for whatever `PTPContainer::unpack` raises when it rejects its input;
`PTPContainer.cpp` is not among the sources, so the value is kept apart from
the ones `CameraBase` throws itself. -/
inductive PTPError where
  | ERR_NO_DEVICE
  | ERR_NOT_OPEN
  | ERR_ALREADY_OPEN
  | ERR_CANNOT_CONNECT
  | ERR_CANNOT_RECV
  | unpack_failed
  deriving DecidableEq

/-- The data members of `class PTPContainer` (`PTPContainer.hpp`, lines 8-22).
`payload` is the byte sequence behind the `unsigned char *`. -/
structure PTPContainer where
  length : Nat
  payload : List Nat
  type : Nat
  code : Nat
  transaction_id : Nat
  deriving DecidableEq

/-- The constant `PTPContainer::default_length`:
`sizeof(uint32_t)+sizeof(uint32_t)+sizeof(uint16_t)+sizeof(uint16_t)`. -/
def default_length : Nat := 4 + 4 + 2 + 2

/-- Enumerator `CONTAINER_TYPE_COMMAND`. -/
def CONTAINER_TYPE_COMMAND : Nat := 1
/-- Enumerator `CONTAINER_TYPE_DATA`. -/
def CONTAINER_TYPE_DATA : Nat := 2
/-- Enumerator `CONTAINER_TYPE_RESPONSE`. -/
def CONTAINER_TYPE_RESPONSE : Nat := 3
/-- Enumerator `CONTAINER_TYPE_EVENT`. -/
def CONTAINER_TYPE_EVENT : Nat := 4

/-- The member functions of `PTPContainer` that `CameraBase.cpp` calls.  They
are declared in `PTPContainer.hpp` and defined in `PTPContainer.cpp`, which is
not among the sources, so the engine is embedded over an arbitrary
implementation of them.

* `empty` is the object built by the default constructor `PTPContainer()`;
* `pack c` is the buffer returned by `c.pack()`;
* `get_length c` is `c.get_length()`, a `uint32_t`;
* `unpack bytes` is the contents an object has after `unpack(bytes)`, where
  `bytes` is the whole array the pointer argument points into; `none` means
  that `unpack` raised. -/
structure Codec where
  empty : PTPContainer
  pack : PTPContainer → List Nat
  get_length : PTPContainer → Nat
  unpack : List Nat → Option PTPContainer

/-- Conversion of a `uint32_t` value to `int` (32-bit two's complement). -/
def to_int (n : Nat) : Int :=
  if n % 2 ^ 32 < 2 ^ 31 then ((n % 2 ^ 32 : Nat) : Int) else ((n % 2 ^ 32 : Nat) : Int) - 2 ^ 32

/-- Conversion of an `int` value to `uint32_t`. -/
def to_uint32 (i : Int) : Nat := (i % 2 ^ 32).toNat

/-- The fields of `struct libusb_endpoint_descriptor` (libusb.h) that
`CameraBase::open` reads. -/
structure libusb_endpoint_descriptor where
  bEndpointAddress : Nat
  bmAttributes : Nat
  deriving DecidableEq

/-- The fields of `struct libusb_interface_descriptor` (libusb.h) that
`CameraBase` reads.  `endpoint` is the array of `bNumEndpoints` endpoint
descriptors. -/
structure libusb_interface_descriptor where
  bInterfaceNumber : Nat
  bInterfaceClass : Nat
  endpoint : List libusb_endpoint_descriptor
  deriving DecidableEq

/-- The `struct libusb_interface` of libusb.h: the array of `num_altsetting`
alternate settings. -/
structure libusb_interface where
  altsetting : List libusb_interface_descriptor
  deriving DecidableEq

/-- The `struct libusb_config_descriptor` of libusb.h: the array of
`bNumInterfaces` interfaces. -/
structure libusb_config_descriptor where
  interface : List libusb_interface
  deriving DecidableEq

/-- A `libusb_device`, described by what libusb answers for it: the return
code of `libusb_open` and the handle it stores on success, the return code of
`libusb_get_active_config_descriptor` and the descriptor it yields. -/
structure libusb_device where
  open_err : Int
  new_handle : Nat
  config_err : Int
  config : libusb_config_descriptor
  deriving DecidableEq

/-- The libusb.h constant `LIBUSB_ENDPOINT_DIR_MASK`. -/
def LIBUSB_ENDPOINT_DIR_MASK : Nat := 128
/-- The libusb.h constant `LIBUSB_ENDPOINT_IN`. -/
def LIBUSB_ENDPOINT_IN : Nat := 128
/-- The libusb.h constant `LIBUSB_ENDPOINT_OUT`. -/
def LIBUSB_ENDPOINT_OUT : Nat := 0
/-- The libusb.h constant `LIBUSB_TRANSFER_TYPE_MASK`. -/
def LIBUSB_TRANSFER_TYPE_MASK : Nat := 3
/-- The libusb.h constant `LIBUSB_TRANSFER_TYPE_BULK`. -/
def LIBUSB_TRANSFER_TYPE_BULK : Nat := 2

/-- The data members of `class CameraBase` (`CameraBase.hpp`, lines 12-17).
`handle` and `intf` are pointers: `none` is `NULL`.  For `intf`, `some i` is
the address line 300 stores, that of the loop-local copy `altsetting`, and `i`
is what that copy held when `open` read it.  Only `open` reads those contents,
right after the loop that made the copy; once `open` has returned the slot is
dead, and a read through `intf` yields `USB.dead_frame_number`. -/
structure CameraBase where
  handle : Option Nat
  usb_error : Int
  intf : Option libusb_interface_descriptor
  ep_in : Nat
  ep_out : Nat
  _transaction_id : Nat
  deriving DecidableEq

/-! ## The environment: libusb -/

/-- What the device does on one bulk IN transfer: the libusb return code and
the bytes it delivers. -/
structure ReadReply where
  ret : Int
  data : List Nat
  deriving DecidableEq

/-- Where a bulk IN transfer is asked to place its bytes: the 512-byte array
`buffer` of `recv_ptp_message`, or `&out_buf[offset]`. -/
inductive Dest where
  | buffer
  | out_buf (offset : Nat)
  deriving DecidableEq

/-- The observable steps of the engine, in the order they happen.
`recv_ptp_message` marks an entry into that function; `bulk_out` and `bulk_in`
are the calls of `libusb_bulk_transfer` with their endpoint, buffer and length
arguments; the other four are the calls of `libusb_open`,
`libusb_claim_interface`, `libusb_release_interface` and `libusb_close` with
their handle and interface number. -/
inductive Event where
  | recv_ptp_message
  | bulk_out (ep : Nat) (bytes : List Nat) (length : Int)
  | bulk_in (ep : Nat) (dest : Dest) (size : Int)
  | open_device
  | claim_interface (handle : Nat) (number : Nat)
  | release_interface (handle : Nat) (number : Nat)
  | close_handle (handle : Nat)
  deriving DecidableEq

/-- The libusb side of a connection.
* `in_script`: the replies to the bulk IN transfers still to come;
* `out_script`: the return codes of the bulk OUT transfers still to come;
* `uninit k i`: byte `i` of the `k`-th array obtained from `new` without
  initialisation; `allocs` counts those arrays;
* `trace`: the events so far, oldest first;
* `dead_frame_number`: what a read of `bInterfaceNumber` through `this->intf`
  yields once `open` has returned.  `open` stores in `intf` the address of a
  copy local to its loop, so that read goes to a dead stack slot and its
  value is not determined by the program. -/
structure USB where
  in_script : List ReadReply
  out_script : List Int
  uninit : Nat → Nat → Nat
  allocs : Nat
  trace : List Event
  dead_frame_number : Nat := 0

/-- The libusb code `LIBUSB_ERROR_TIMEOUT`. -/
def LIBUSB_ERROR_TIMEOUT : Int := -7

/-- Append an event to the trace. -/
def USB.emit (w : USB) (e : Event) : USB :=
  { w with trace := w.trace ++ [e] }

/-- The array `new unsigned char[n]`: `n` bytes of undetermined contents. -/
def USB.new_bytes (w : USB) (n : Nat) : USB × List Nat :=
  ({ w with allocs := w.allocs + 1 }, (List.range n).map (w.uninit w.allocs))

/-- The call `libusb_bulk_transfer(handle, ep_out, bytestr, length, ..)`:
it is recorded and answered with the next scripted return code (`0` once the
script is used up). -/
def libusb_bulk_out (w : USB) (ep : Nat) (bytestr : List Nat) (length : Int) : USB × Int :=
  ({ (w.emit (Event.bulk_out ep bytestr length)) with out_script := w.out_script.tail },
    w.out_script.headD 0)

/-- The call `libusb_bulk_transfer(handle, ep_in, data_out, size, transferred, ..)`:
it is recorded and answered with the next scripted reply (a timeout without
data once the script is used up).  At most `size` bytes are transferred; the
result is the return code and the bytes written to `data_out`, whose number
is `*transferred`. -/
def libusb_bulk_in (w : USB) (ep : Nat) (dest : Dest) (size : Int) : USB × Int × List Nat :=
  let r := w.in_script.headD ⟨LIBUSB_ERROR_TIMEOUT, []⟩
  ({ (w.emit (Event.bulk_in ep dest size)) with in_script := w.in_script.tail },
    r.ret, r.data.take size.toNat)

/-- Number of entries into `recv_ptp_message` recorded in a trace. -/
def recv_calls (t : List Event) : Nat :=
  (t.filter (fun e => decide (e = Event.recv_ptp_message))).length

/-- An event is a bulk IN transfer. -/
def Event.is_read : Event → Bool
  | Event.bulk_in _ _ _ => true
  | _ => false

/-- An event is a bulk OUT transfer. -/
def Event.is_write : Event → Bool
  | Event.bulk_out _ _ _ => true
  | _ => false

/-- The bulk IN transfers recorded in a trace. -/
def reads (t : List Event) : List Event := t.filter Event.is_read

/-- The bulk OUT transfers recorded in a trace. -/
def writes (t : List Event) : List Event := t.filter Event.is_write

/-! ## `CameraBase` -/

/-- `CameraBase::init` (lines 63-70). -/
def init (_cam : CameraBase) : CameraBase :=
  { handle := none, usb_error := 0, intf := none, ep_in := 0, ep_out := 0, _transaction_id := 0 }

/-- How a call ends: it returns a value, it throws, or it reads through a
`NULL` pointer, after which the source defines no behaviour. -/
inductive Ending (α : Type) where
  | returned (value : α)
  | thrown (e : PTPError)
  | null_dereference
  deriving DecidableEq

/-- Outcome of `close` and of `open`: the object, the environment and the way
the call ended. -/
structure CallResult where
  cam : CameraBase
  usb : USB
  ending : Ending Bool

/-- `CameraBase::close` (lines 77-84).  The interface number is read through
`this->intf`: through `NULL` when no interface was ever stored, and otherwise
from the dead frame of `open`, where the environment decides what is found.
The return values of the two libusb calls are dropped, as in the source. -/
def close (cam : CameraBase) (w : USB) : CallResult :=
  match cam.handle with
  | none => ⟨cam, w, Ending.returned true⟩
  | some h =>
    -- libusb_release_interface(this->handle, this->intf->bInterfaceNumber);
    match cam.intf with
    | none => ⟨cam, w, Ending.null_dereference⟩
    | some _ =>
      let w := w.emit (Event.release_interface h w.dead_frame_number)
      -- libusb_close(this->handle);
      let w := w.emit (Event.close_handle h)
      ⟨{ cam with handle := none }, w, Ending.returned true⟩

/-- Lines 295-306 of `CameraBase::open`: the search for the PTP interface.
Inside one interface the first alternate setting of class 6 is taken and
claimed (inner loop, left by `break`); the outer loop is left as soon as
`this->intf` is not `NULL`. -/
def open_find_interface (cam : CameraBase) (w : USB) (handle : Nat) :
    List libusb_interface → CameraBase × USB
  | [] => (cam, w)
  | i :: rest =>
    match i.altsetting.find? (fun a => decide (a.bInterfaceClass = 6)) with
    | some a =>
      -- this->intf = &altsetting; libusb_claim_interface(this->handle, ..); break;
      -- then: if(this->intf) break;
      ({ cam with intf := some a }, w.emit (Event.claim_interface handle a.bInterfaceNumber))
    | none =>
      match cam.intf with
      | some _ => (cam, w)
      | none => open_find_interface cam w handle rest

/-- Lines 311-317 of `CameraBase::open`: the body of the endpoint loop.

In the first condition `==` binds tighter than `&`, so the source reads
`bEndpointAddress & (LIBUSB_ENDPOINT_DIR_MASK == LIBUSB_ENDPOINT_IN)`: the
comparison of the two constants yields `1` or `0`, and the address is masked
with that value.  The `else if` has its own parentheses around the `&`. -/
def open_scan_endpoint (cam : CameraBase) (endpoint : libusb_endpoint_descriptor) :
    CameraBase :=
  if (endpoint.bEndpointAddress &&&
        (if LIBUSB_ENDPOINT_DIR_MASK = LIBUSB_ENDPOINT_IN then 1 else 0)) ≠ 0 ∧
      (endpoint.bmAttributes &&& LIBUSB_TRANSFER_TYPE_MASK) = LIBUSB_TRANSFER_TYPE_BULK then
    { cam with ep_in := endpoint.bEndpointAddress }
  else if (endpoint.bEndpointAddress &&& LIBUSB_ENDPOINT_DIR_MASK) = LIBUSB_ENDPOINT_OUT then
    { cam with ep_out := endpoint.bEndpointAddress }
  else
    cam

/-- Lines 309-318 of `CameraBase::open`: the endpoint loop over
`this->intf->endpoint[0 .. bNumEndpoints)`. -/
def open_scan_endpoints (cam : CameraBase) (endpoints : List libusb_endpoint_descriptor) :
    CameraBase :=
  endpoints.foldl open_scan_endpoint cam

/-- `CameraBase::open` (lines 272-324).  `this->intf->bNumEndpoints` on line
310 is read through `this->intf`, which is still `NULL` when no interface of
class 6 was found. -/
def «open» (cam : CameraBase) (w : USB) (dev : libusb_device) : CallResult :=
  match cam.handle with
  | some _ => ⟨cam, w, Ending.thrown PTPError.ERR_ALREADY_OPEN⟩
  | none =>
    -- int err = libusb_open(dev, &(this->handle));
    let w := w.emit Event.open_device
    if dev.open_err ≠ 0 then
      ⟨cam, w, Ending.thrown PTPError.ERR_CANNOT_CONNECT⟩
    else
      let cam := { cam with handle := some dev.new_handle }
      -- int r = libusb_get_active_config_descriptor(dev, &desc);
      if dev.config_err < 0 then
        ⟨{ cam with usb_error := dev.config_err }, w, Ending.returned false⟩
      else
        let f := open_find_interface cam w dev.new_handle dev.config.interface
        match f.1.intf with
        | none => ⟨f.1, f.2, Ending.null_dereference⟩
        | some i => ⟨open_scan_endpoints f.1 i.endpoint, f.2, Ending.returned true⟩

/-- `CameraBase::_bulk_write` (lines 97-107). -/
def _bulk_write (cam : CameraBase) (w : USB) (bytestr : List Nat) (length : Int) :
    USB × Except PTPError Int :=
  match cam.handle with
  | none => (w, Except.error PTPError.ERR_NOT_OPEN)
  | some _ =>
    let r := libusb_bulk_out w cam.ep_out bytestr length
    (r.1, Except.ok r.2)

/-- `CameraBase::_bulk_read` (lines 121-129).  The result carries the return
code and the bytes placed at `data_out`; `*transferred` is their number. -/
def _bulk_read (cam : CameraBase) (w : USB) (dest : Dest) (size : Int) :
    USB × Except PTPError (Int × List Nat) :=
  match cam.handle with
  | none => (w, Except.error PTPError.ERR_NOT_OPEN)
  | some _ =>
    let r := libusb_bulk_in w cam.ep_in dest size
    (r.1, Except.ok r.2)

/-- `CameraBase::send_ptp_message` (lines 139-145).  `cmd->get_length()` is a
`uint32_t` passed for the `int length` parameter. -/
def send_ptp_message (codec : Codec) (cam : CameraBase) (w : USB) (cmd : PTPContainer) :
    USB × Except PTPError Int :=
  let packed := codec.pack cmd
  _bulk_write cam w packed (to_int (codec.get_length cmd))

/-- Write `src` into `buf` from position `off` on (`std::copy` into a buffer,
or a transfer into it). -/
def overwrite (buf : List Nat) (off : Nat) (src : List Nat) : List Nat :=
  buf.take off ++ src ++ buf.drop (off + src.length)

/-- The value of `size` after line 174, `std::copy(buffer, buffer + 4, &size)`.
The source range has element type `unsigned char` and the destination is a
`uint32_t *`, so `std::copy` assigns element by element: `size` receives
`buffer[0]`, a value below 256, and the three other bytes are stored into the
three words behind `size`.  Those three stores fall outside the object and
are left out of the embedding.  (The comment of the line, "The first four
bytes of the buffer are the size", describes a byte-wise copy, which the
statement is not.) -/
def declared_size (buffer : List Nat) : Nat :=
  buffer.getD 0 0 % 256

/-- The statement `if(out != NULL) out->unpack(bytes);` (lines 186-188, and
lines 240-244 and 247-251 with `bytes` the result of `pack()`): the contents
of `*out` afterwards and the value thrown, if any.  When `unpack` raises,
`*out` is taken to keep its contents. -/
def unpack_into (codec : Codec) (out : Option PTPContainer) (bytes : List Nat) :
    Option PTPContainer × Option PTPError :=
  match out with
  | none => (none, none)
  | some old =>
    match codec.unpack bytes with
    | some c => (some c, none)
    | none => (some old, some PTPError.unpack_failed)

/-- Outcome of `recv_ptp_message`: the environment, the contents of `*out`
(`none` when `out` is `NULL`) and the value thrown, if any. -/
structure RecvResult where
  usb : USB
  out : Option PTPContainer
  thrown : Option PTPError

/-- `CameraBase::recv_ptp_message` (lines 162-191).

The return codes of both `_bulk_read` calls are dropped, as in the source.
`read` is the number of bytes of the first transfer; the count of the second
transfer is stored to `read` too and never looked at. -/
def recv_ptp_message (codec : Codec) (cam : CameraBase) (w : USB) (out : Option PTPContainer) :
    RecvResult :=
  let w := w.emit Event.recv_ptp_message
  -- unsigned char * buffer = new unsigned char[512];
  let a := w.new_bytes 512
  -- this->_bulk_read(buffer, 512, &read, timeout);
  match _bulk_read cam a.1 Dest.buffer 512 with
  | (w, Except.error e) => ⟨w, out, some e⟩
  | (w, Except.ok (_, got)) =>
    let buffer := overwrite a.2 0 got
    let read := got.length
    if read < 4 then
      ⟨w, out, some PTPError.ERR_CANNOT_RECV⟩
    else
      let size := declared_size buffer
      -- unsigned char * out_buf = new unsigned char[size];
      let b := w.new_bytes size
      if size < 512 then
        let out_buf := overwrite b.2 0 (buffer.take size)
        let u := unpack_into codec out out_buf
        ⟨b.1, u.1, u.2⟩
      else
        let out_buf := overwrite b.2 0 (buffer.take 512)
        -- this->_bulk_read(&out_buf[512], size-512, &read, timeout);
        match _bulk_read cam b.1 (Dest.out_buf 512) (to_int (size - 512)) with
        | (w, Except.error e) => ⟨w, out, some e⟩
        | (w, Except.ok (_, rest)) =>
          let out_buf := overwrite out_buf 512 rest
          let u := unpack_into codec out out_buf
          ⟨w, u.1, u.2⟩

/-- `CameraBase::get_and_increment_transaction_id` (lines 396-400): the new
object state and the returned `int`. -/
def get_and_increment_transaction_id (cam : CameraBase) : CameraBase × Int :=
  let ret := cam._transaction_id
  ({ cam with _transaction_id := (cam._transaction_id + 1) % 2 ^ 32 }, to_int ret)

/-- State after lines 226-232 of `ptp_transaction` (the writes). -/
structure SendResult where
  cam : CameraBase
  usb : USB
  cmd : PTPContainer
  data : Option PTPContainer
  thrown : Option PTPError

/-- Lines 226-232 of `CameraBase::ptp_transaction`: allocate the id, stamp
and send `cmd`, then stamp and send `data` when it is not `NULL`.  The return
codes of `send_ptp_message` are dropped, as in the source. -/
def ptp_transaction_send (codec : Codec) (cam : CameraBase) (w : USB) (cmd : PTPContainer)
    (data : Option PTPContainer) : SendResult :=
  -- cmd->transaction_id = this->get_and_increment_transaction_id();
  let g := get_and_increment_transaction_id cam
  let cmd := { cmd with transaction_id := to_uint32 g.2 }
  -- this->send_ptp_message(cmd, timeout);
  match send_ptp_message codec g.1 w cmd with
  | (w, Except.error e) => ⟨g.1, w, cmd, data, some e⟩
  | (w, Except.ok _) =>
    match data with
    | none => ⟨g.1, w, cmd, none, none⟩
    | some d =>
      -- data->transaction_id = cmd->transaction_id;
      let d := { d with transaction_id := cmd.transaction_id }
      match send_ptp_message codec g.1 w d with
      | (w, Except.error e) => ⟨g.1, w, cmd, some d, some e⟩
      | (w, Except.ok _) => ⟨g.1, w, cmd, some d, none⟩

/-- State after lines 234-259 of `ptp_transaction` (the reads). -/
structure ReceiveResult where
  usb : USB
  out_resp : Option PTPContainer
  out_data : Option PTPContainer
  thrown : Option PTPError

/-- Lines 255-259 of `CameraBase::ptp_transaction`: the read made when
`received_resp` is false, `this->recv_ptp_message(out_resp, timeout)`. -/
def ptp_transaction_read_anyway (codec : Codec) (cam : CameraBase) (w : USB)
    (out_resp out_data : Option PTPContainer) : ReceiveResult :=
  let r := recv_ptp_message codec cam w out_resp
  ⟨r.usb, r.out, out_data, r.thrown⟩

/-- Lines 234-259 of `CameraBase::ptp_transaction`. -/
def ptp_transaction_receive (codec : Codec) (cam : CameraBase) (w : USB) (receiving : Bool)
    (out_resp out_data : Option PTPContainer) : ReceiveResult :=
  if receiving then
    -- PTPContainer out; this->recv_ptp_message(&out, timeout);
    let r := recv_ptp_message codec cam w (some codec.empty)
    match r.thrown with
    | some e => ⟨r.usb, out_resp, out_data, some e⟩
    | none =>
      let out := r.out.getD codec.empty
      if out.type = CONTAINER_TYPE_DATA then
        -- received_data = true; if(out_data != NULL) out_data->unpack(out.pack());
        let u := unpack_into codec out_data (codec.pack out)
        match u.2 with
        | some e => ⟨r.usb, out_resp, u.1, some e⟩
        | none => ptp_transaction_read_anyway codec cam r.usb out_resp u.1
      else if out.type = CONTAINER_TYPE_RESPONSE then
        -- received_resp = true; if(out_resp != NULL) out_resp->unpack(out.pack());
        let u := unpack_into codec out_resp (codec.pack out)
        ⟨r.usb, u.1, out_data, u.2⟩
      else
        ptp_transaction_read_anyway codec cam r.usb out_resp out_data
  else
    ptp_transaction_read_anyway codec cam w out_resp out_data

/-- Outcome of `ptp_transaction`: the object, the environment, the contents
of the four containers and the value thrown, if any. -/
structure TxResult where
  cam : CameraBase
  usb : USB
  cmd : PTPContainer
  data : Option PTPContainer
  out_resp : Option PTPContainer
  out_data : Option PTPContainer
  thrown : Option PTPError

/-- `CameraBase::ptp_transaction` (lines 222-260). -/
def ptp_transaction (codec : Codec) (cam : CameraBase) (w : USB) (cmd : PTPContainer)
    (data : Option PTPContainer) (receiving : Bool) (out_resp out_data : Option PTPContainer) :
    TxResult :=
  let s := ptp_transaction_send codec cam w cmd data
  match s.thrown with
  | some e => ⟨s.cam, s.usb, s.cmd, s.data, out_resp, out_data, some e⟩
  | none =>
    let r := ptp_transaction_receive codec s.cam s.usb receiving out_resp out_data
    ⟨s.cam, r.usb, s.cmd, s.data, r.out_resp, r.out_data, r.thrown⟩

/-! ## A reference codec -/

/-- Two bytes, little-endian. -/
def le16 (n : Nat) : List Nat := [n % 256, n / 256 % 256]

/-- Four bytes, little-endian. -/
def le32 (n : Nat) : List Nat := [n % 256, n / 256 % 256, n / 65536 % 256, n / 16777216 % 256]

/-- The total length a message declares on the wire: the little-endian value
of its first four bytes (the length field of the container format). -/
def declared_length (bytes : List Nat) : Nat :=
  bytes.getD 0 0 + 256 * bytes.getD 1 0 + 65536 * bytes.getD 2 0 + 16777216 * bytes.getD 3 0

/-- Modelled from the spec: `PTPContainer::get_length` of `PTPContainer.cpp`.
"`length`: total wire length = fixed header size (12 bytes) + parameter/payload
bytes; always recomputed from content before packing". -/
def spec_get_length (c : PTPContainer) : Nat := (default_length + c.payload.length) % 2 ^ 32

/-- Modelled from the spec: `PTPContainer::pack` of `PTPContainer.cpp`.
"4-byte length, 2-byte kind, 2-byte code, 4-byte transaction id, followed by
either packed 32-bit parameters or raw payload bytes; all integers
little-endian". -/
def spec_pack (c : PTPContainer) : List Nat :=
  le32 (spec_get_length c) ++ le16 c.type ++ le16 c.code ++ le32 c.transaction_id ++ c.payload

/-- Modelled from the spec: `PTPContainer::unpack` of `PTPContainer.cpp`.
"`unpack` is the exact inverse and must fail with a FramingError if the
declared length does not match the number of bytes supplied, or if a Command
container's remaining bytes are not a whole multiple of 4". -/
def spec_unpack (bytes : List Nat) : Option PTPContainer :=
  let type := bytes.getD 4 0 + 256 * bytes.getD 5 0
  if declared_length bytes = bytes.length ∧ default_length ≤ bytes.length ∧
      (type = CONTAINER_TYPE_COMMAND → (bytes.length - default_length) % 4 = 0) then
    some { length := bytes.length
           payload := bytes.drop default_length
           type := type
           code := bytes.getD 6 0 + 256 * bytes.getD 7 0
           transaction_id := bytes.getD 8 0 + 256 * bytes.getD 9 0 + 65536 * bytes.getD 10 0
             + 16777216 * bytes.getD 11 0 }
  else
    none

/-- Modelled from the spec: the container codec of `PTPContainer.cpp` (its
default constructor, `pack`, `get_length` and `unpack`), as section 4.1 of the
specification describes it. -/
def spec_codec : Codec :=
  { empty := { length := default_length, payload := [], type := 0, code := 0, transaction_id := 0 }
    pack := spec_pack
    get_length := spec_get_length
    unpack := spec_unpack }

/-! ## Observations used in the statements -/

/-- The first transport read of a `recv_ptp_message` call started in `w`:
the environment after it, its return code and the bytes it transferred. -/
def first_read (cam : CameraBase) (w : USB) : USB × Int × List Nat :=
  libusb_bulk_in ((w.emit Event.recv_ptp_message).new_bytes 512).1 cam.ep_in Dest.buffer 512

/-- Number of bytes transferred by the first transport read (`read`). -/
def first_count (cam : CameraBase) (w : USB) : Nat := (first_read cam w).2.2.length

/-- Contents of the array `buffer` after the first transport read. -/
def first_buffer (cam : CameraBase) (w : USB) : List Nat :=
  overwrite ((w.emit Event.recv_ptp_message).new_bytes 512).2 0 (first_read cam w).2.2

/-- The transfer of line 183, the second transport read of a
`recv_ptp_message` call started in `w`, in case its branch is taken. -/
def second_read (cam : CameraBase) (w : USB) : USB × Int × List Nat :=
  libusb_bulk_in ((first_read cam w).1.new_bytes (declared_size (first_buffer cam w))).1
    cam.ep_in (Dest.out_buf 512) (to_int (declared_size (first_buffer cam w) - 512))

/-- Contents of `out_buf` when it is handed to `unpack` (lines 177-184). -/
def final_out_buf (cam : CameraBase) (w : USB) : List Nat :=
  let size := declared_size (first_buffer cam w)
  let fresh := ((first_read cam w).1.new_bytes size).2
  if size < 512 then
    overwrite fresh 0 ((first_buffer cam w).take size)
  else
    overwrite (overwrite fresh 0 ((first_buffer cam w).take 512)) 512 (second_read cam w).2.2

/-- The first `recv_ptp_message` call of `ptp_transaction(cmd, data, true, ..)`
(line 236): the receive into the local container `out`, made in the state the
write phase leaves. -/
def first_recv (codec : Codec) (cam : CameraBase) (w : USB) (cmd : PTPContainer)
    (data : Option PTPContainer) : RecvResult :=
  recv_ptp_message codec (ptp_transaction_send codec cam w cmd data).cam
    (ptp_transaction_send codec cam w cmd data).usb (some codec.empty)

/-- The `recv_ptp_message` call that follows the first one inside the same
`ptp_transaction` call (line 258): the receive into `out_resp`. -/
def second_recv (codec : Codec) (cam : CameraBase) (w : USB) (cmd : PTPContainer)
    (data : Option PTPContainer) (out_resp : Option PTPContainer) : RecvResult :=
  recv_ptp_message codec (ptp_transaction_send codec cam w cmd data).cam
    (first_recv codec cam w cmd data).usb out_resp

/-- The only `recv_ptp_message` call of `ptp_transaction(cmd, data, false, ..)`
(line 258): the receive into `out_resp`, made in the state the write phase
leaves. -/
def only_recv (codec : Codec) (cam : CameraBase) (w : USB) (cmd : PTPContainer)
    (data : Option PTPContainer) (out_resp : Option PTPContainer) : RecvResult :=
  recv_ptp_message codec (ptp_transaction_send codec cam w cmd data).cam
    (ptp_transaction_send codec cam w cmd data).usb out_resp

/-- The trace `t'` continues `t` without any bulk OUT transfer. -/
def continues_without_write (t t' : List Event) : Prop :=
  ∃ rest, t' = t ++ rest ∧ writes rest = []

/-- The environment `w` with every scripted return code replaced by `0`
(success): the device delivers the same bytes, and no transfer reports an
error. -/
def zero_codes (w : USB) : USB :=
  { w with in_script := w.in_script.map (fun r => ⟨0, r.data⟩),
           out_script := w.out_script.map (fun _ => 0) }

/-- An endpoint whose direction bit (`address & 0x80`) is IN and whose transfer
type is bulk. -/
def is_bulk_in (e : libusb_endpoint_descriptor) : Bool :=
  decide ((e.bEndpointAddress &&& LIBUSB_ENDPOINT_DIR_MASK) = LIBUSB_ENDPOINT_IN ∧
    (e.bmAttributes &&& LIBUSB_TRANSFER_TYPE_MASK) = LIBUSB_TRANSFER_TYPE_BULK)

/-- An endpoint whose direction bit (`address & 0x80`) is OUT. -/
def is_out (e : libusb_endpoint_descriptor) : Bool :=
  decide ((e.bEndpointAddress &&& LIBUSB_ENDPOINT_DIR_MASK) = LIBUSB_ENDPOINT_OUT)

/-- Selection by direction, in the words of the specification: the address of
the last endpoint that is IN and bulk, `0` if there is none. -/
def expected_ep_in (endpoints : List libusb_endpoint_descriptor) : Nat :=
  ((endpoints.filter is_bulk_in).getLast?.map (fun e => e.bEndpointAddress)).getD 0

/-- Selection by direction, in the words of the specification: the address of
the last endpoint that is OUT, `0` if there is none. -/
def expected_ep_out (endpoints : List libusb_endpoint_descriptor) : Nat :=
  ((endpoints.filter is_out).getLast?.map (fun e => e.bEndpointAddress)).getD 0

/-- The test the first condition of the endpoint loop makes as written: the
lowest bit of the address is set and the transfer type is bulk. -/
def odd_and_bulk (e : libusb_endpoint_descriptor) : Bool :=
  decide ((e.bEndpointAddress &&& 1) ≠ 0 ∧
    (e.bmAttributes &&& LIBUSB_TRANSFER_TYPE_MASK) = LIBUSB_TRANSFER_TYPE_BULK)

/-! ## Sequences of calls -/

/-- The object after `n` successive calls of
`get_and_increment_transaction_id`. -/
def after_ids (cam : CameraBase) : Nat → CameraBase
  | 0 => cam
  | n + 1 => (get_and_increment_transaction_id (after_ids cam n)).1

/-- The arguments of one `ptp_transaction` call. -/
structure Call where
  cmd : PTPContainer
  data : Option PTPContainer
  receiving : Bool
  out_resp : Option PTPContainer
  out_data : Option PTPContainer

/-- Sequential `ptp_transaction` calls on one connection: each call starts
from the object and the environment the previous one left.  The result lists
the outcome of every call, in order. -/
def run_transactions (codec : Codec) (cam : CameraBase) (w : USB) : List Call → List TxResult
  | [] => []
  | c :: cs =>
    (ptp_transaction codec cam w c.cmd c.data c.receiving c.out_resp c.out_data) ::
      run_transactions codec
        (ptp_transaction codec cam w c.cmd c.data c.receiving c.out_resp c.out_data).cam
        (ptp_transaction codec cam w c.cmd c.data c.receiving c.out_resp c.out_data).usb cs

/-! ## Concrete inputs -/

/-- A PTP interface (class 6, number 0) with a bulk IN endpoint `0x81`, a bulk
OUT endpoint `0x02` and an interrupt IN endpoint `0x83`. -/
def demo_interface : libusb_interface_descriptor :=
  { bInterfaceNumber := 0, bInterfaceClass := 6,
    endpoint := [⟨129, 2⟩, ⟨2, 2⟩, ⟨131, 3⟩] }

/-- An open connection: handle and interface claimed, bulk IN endpoint `0x81`,
bulk OUT endpoint `0x02`, no transaction made yet. -/
def demo_cam : CameraBase :=
  { handle := some 1, usb_error := 0, intf := some demo_interface, ep_in := 129, ep_out := 2,
    _transaction_id := 0 }

/-- A device that answers the bulk IN transfers with `replies` and accepts
every bulk OUT transfer; fresh memory reads as zero. -/
def demo_usb (replies : List ReadReply) : USB :=
  { in_script := replies, out_script := [], uninit := fun _ _ => 0, allocs := 0, trace := [] }

/-- Command `0x1001` without parameters. -/
def demo_cmd : PTPContainer :=
  { length := 12, payload := [], type := 1, code := 4097, transaction_id := 0 }

/-- Data container carrying the five bytes of "hello". -/
def demo_data_out : PTPContainer :=
  { length := 17, payload := [104, 101, 108, 108, 111], type := 2, code := 4097,
    transaction_id := 0 }

/-- Response `0x2001` with one parameter `0`. -/
def demo_response : PTPContainer :=
  { length := 16, payload := [0, 0, 0, 0], type := 3, code := 8193, transaction_id := 0 }

/-- Data container with payload `[0x01, 0x02]`. -/
def demo_data_in : PTPContainer :=
  { length := 14, payload := [1, 2], type := 2, code := 4097, transaction_id := 0 }

/-- Event container `0x4002` without payload. -/
def demo_event : PTPContainer :=
  { length := 12, payload := [], type := 4, code := 16386, transaction_id := 0 }

/-- Three calls in a row: a plain command, a command with outgoing data, a
command that expects data back. -/
def demo_calls : List Call :=
  [ { cmd := demo_cmd, data := none, receiving := false, out_resp := some demo_cmd,
      out_data := none },
    { cmd := demo_cmd, data := some demo_data_out, receiving := false,
      out_resp := some demo_cmd, out_data := none },
    { cmd := demo_cmd, data := none, receiving := true, out_resp := some demo_cmd,
      out_data := some demo_cmd } ]

/-- The twelve header bytes of a Data container that declares 16 bytes; the
four payload bytes never arrive. -/
def truncated_data : List Nat := [16, 0, 0, 0, 2, 0, 1, 16, 0, 0, 0, 0]

/-- The first 512 bytes of a Data container of 600 bytes (length field
`0x00000258`), as one transfer delivers them. -/
def long_container_head : List Nat :=
  [88, 2, 0, 0, 2, 0, 1, 16, 0, 0, 0, 0] ++ List.replicate 500 7

/-- The remaining 88 bytes of that container, held by the device for the next
transfer. -/
def long_container_tail : List Nat := List.replicate 88 7

/-- A device that sends the 600-byte Data container: 512 bytes, then 88. -/
def long_container_usb : USB :=
  demo_usb [⟨0, long_container_head⟩, ⟨0, long_container_tail⟩]

/-- Response `0x2002` (General Error) without parameters. -/
def demo_error_response : PTPContainer :=
  { length := 12, payload := [], type := 3, code := 8194, transaction_id := 0 }

/-- A device that accepts the command, on which the write of the data
container returns `LIBUSB_ERROR_TIMEOUT` (-7), and that then answers with the
Response `0x2002`. -/
def failing_usb : USB :=
  { in_script := [⟨0, spec_pack demo_error_response⟩], out_script := [0, -7],
    uninit := fun _ _ => 0, allocs := 0, trace := [] }

/-- The object as the constructor `CameraBase()` leaves it. -/
def fresh_cam : CameraBase := init demo_cam

/-- A device that `libusb_open` opens (handle 7) and whose active
configuration cannot be read: `libusb_get_active_config_descriptor` returns
`LIBUSB_ERROR_NOT_FOUND` (-5), as for a device that is not configured. -/
def unconfigured_device : libusb_device :=
  { open_err := 0, new_handle := 7, config_err := -5, config := ⟨[]⟩ }

/-- The endpoints of a PTP interface that numbers them differently from
`demo_interface`: bulk OUT `0x01`, bulk IN `0x82`, interrupt IN `0x83`. -/
def odd_out_endpoints : List libusb_endpoint_descriptor := [⟨1, 2⟩, ⟨130, 2⟩, ⟨131, 3⟩]

/-- A device with one interface of class 6 carrying `odd_out_endpoints`. -/
def odd_out_device : libusb_device :=
  { open_err := 0, new_handle := 7, config_err := 0,
    config := ⟨[⟨[{ bInterfaceNumber := 0, bInterfaceClass := 6,
                    endpoint := odd_out_endpoints }]⟩]⟩ }

/-- A device with one interface, `demo_interface`. -/
def demo_device : libusb_device :=
  { open_err := 0, new_handle := 7, config_err := 0, config := ⟨[⟨[demo_interface]⟩]⟩ }

/-! ## Basic facts -/

theorem bulk_read_open (cam : CameraBase) (w : USB) (d : Dest) (n : Int) (hd : Nat)
    (h : cam.handle = some hd) :
    _bulk_read cam w d n
      = ((libusb_bulk_in w cam.ep_in d n).1, Except.ok (libusb_bulk_in w cam.ep_in d n).2) := by
  simp only [_bulk_read, h]

theorem bulk_write_open (cam : CameraBase) (w : USB) (bytes : List Nat) (n : Int) (hd : Nat)
    (h : cam.handle = some hd) :
    _bulk_write cam w bytes n
      = ((libusb_bulk_out w cam.ep_out bytes n).1, Except.ok (libusb_bulk_out w cam.ep_out bytes n).2) := by
  simp only [_bulk_write, h]

/-- With a `NULL` handle `recv_ptp_message` throws before any transfer. -/
theorem recv_not_open (codec : Codec) (cam : CameraBase) (w : USB) (out : Option PTPContainer)
    (h : cam.handle = none) :
    recv_ptp_message codec cam w out =
      ⟨((w.emit Event.recv_ptp_message).new_bytes 512).1, out, some PTPError.ERR_NOT_OPEN⟩ := by
  simp only [recv_ptp_message, _bulk_read, h]

/-- Fewer than four bytes in the first transfer: line 171 throws. -/
theorem recv_short (codec : Codec) (cam : CameraBase) (w : USB) (out : Option PTPContainer)
    (hd : Nat) (h : cam.handle = some hd) (hs : first_count cam w < 4) :
    recv_ptp_message codec cam w out
      = ⟨(first_read cam w).1, out, some PTPError.ERR_CANNOT_RECV⟩ := by
  unfold first_count first_read at hs
  unfold recv_ptp_message first_read
  dsimp only
  rw [bulk_read_open _ _ _ _ hd h]
  dsimp only
  rw [if_pos hs]

/-- At least four bytes and a declared size below 512: one transfer. -/
theorem recv_small (codec : Codec) (cam : CameraBase) (w : USB) (out : Option PTPContainer)
    (hd : Nat) (h : cam.handle = some hd) (hs : ¬ first_count cam w < 4)
    (hlt : declared_size (first_buffer cam w) < 512) :
    recv_ptp_message codec cam w out
      = ⟨((first_read cam w).1.new_bytes (declared_size (first_buffer cam w))).1,
          (unpack_into codec out (final_out_buf cam w)).1,
          (unpack_into codec out (final_out_buf cam w)).2⟩ := by
  unfold final_out_buf
  dsimp only
  rw [if_pos hlt]
  unfold first_count first_read at hs
  unfold first_buffer first_read at hlt
  unfold recv_ptp_message first_buffer first_read
  dsimp only
  rw [bulk_read_open _ _ _ _ hd h]
  dsimp only
  rw [if_neg hs, if_pos hlt]

/-- At least four bytes and a declared size of 512 or more: two transfers. -/
theorem recv_large (codec : Codec) (cam : CameraBase) (w : USB) (out : Option PTPContainer)
    (hd : Nat) (h : cam.handle = some hd) (hs : ¬ first_count cam w < 4)
    (hge : ¬ declared_size (first_buffer cam w) < 512) :
    recv_ptp_message codec cam w out
      = ⟨(second_read cam w).1,
          (unpack_into codec out (final_out_buf cam w)).1,
          (unpack_into codec out (final_out_buf cam w)).2⟩ := by
  unfold final_out_buf
  dsimp only
  rw [if_neg hge]
  unfold first_count first_read at hs
  unfold second_read
  unfold first_buffer first_read at hge
  unfold recv_ptp_message first_buffer first_read
  dsimp only
  rw [bulk_read_open _ _ _ _ hd h]
  dsimp only
  rw [if_neg hs, if_neg hge, bulk_read_open _ _ _ _ hd h]

/-! ### Traces -/

theorem first_read_trace (cam : CameraBase) (w : USB) :
    (first_read cam w).1.trace
      = w.trace ++ [Event.recv_ptp_message, Event.bulk_in cam.ep_in Dest.buffer 512] := by
  simp [first_read, libusb_bulk_in, USB.emit, USB.new_bytes]

theorem second_read_trace (cam : CameraBase) (w : USB) :
    (second_read cam w).1.trace
      = w.trace ++ [Event.recv_ptp_message, Event.bulk_in cam.ep_in Dest.buffer 512,
          Event.bulk_in cam.ep_in (Dest.out_buf 512)
            (to_int (declared_size (first_buffer cam w) - 512))] := by
  have h := first_read_trace cam w
  simp [second_read, libusb_bulk_in, USB.emit, USB.new_bytes, h]

/-- The events a `recv_ptp_message` call appends to the trace. -/
theorem recv_trace (codec : Codec) (cam : CameraBase) (w : USB) (out : Option PTPContainer) :
    (recv_ptp_message codec cam w out).usb.trace =
      w.trace ++ (Event.recv_ptp_message ::
        (if cam.handle = none then []
         else if first_count cam w < 4 then [Event.bulk_in cam.ep_in Dest.buffer 512]
         else if declared_size (first_buffer cam w) < 512 then
           [Event.bulk_in cam.ep_in Dest.buffer 512]
         else [Event.bulk_in cam.ep_in Dest.buffer 512,
               Event.bulk_in cam.ep_in (Dest.out_buf 512)
                 (to_int (declared_size (first_buffer cam w) - 512))])) := by
  cases h : cam.handle with
  | none =>
    rw [recv_not_open codec cam w out h]
    simp [USB.emit, USB.new_bytes]
  | some hd =>
    by_cases hs : first_count cam w < 4
    · rw [recv_short codec cam w out hd h hs]
      simp [hs, first_read_trace]
    · by_cases hlt : declared_size (first_buffer cam w) < 512
      · rw [recv_small codec cam w out hd h hs hlt]
        simp [hs, hlt, USB.new_bytes, first_read_trace]
      · rw [recv_large codec cam w out hd h hs hlt]
        simp [hs, hlt, second_read_trace]

theorem recv_calls_append (s t : List Event) :
    recv_calls (s ++ t) = recv_calls s + recv_calls t := by
  simp [recv_calls]

theorem writes_append (s t : List Event) : writes (s ++ t) = writes s ++ writes t := by
  simp [writes]

theorem reads_append (s t : List Event) : reads (s ++ t) = reads s ++ reads t := by
  simp [reads]

/-- Every `recv_ptp_message` call is recorded once. -/
theorem recv_calls_recv (codec : Codec) (cam : CameraBase) (w : USB) (out : Option PTPContainer) :
    recv_calls (recv_ptp_message codec cam w out).usb.trace = recv_calls w.trace + 1 := by
  rw [recv_trace, recv_calls_append]
  congr 1
  split_ifs <;> simp [recv_calls]

/-- A `recv_ptp_message` call makes no bulk OUT transfer. -/
theorem writes_recv (codec : Codec) (cam : CameraBase) (w : USB) (out : Option PTPContainer) :
    writes (recv_ptp_message codec cam w out).usb.trace = writes w.trace := by
  rw [recv_trace, writes_append]
  split_ifs <;> simp [writes, Event.is_write]

/-! ### The write phase -/

theorem get_and_increment_handle (cam : CameraBase) :
    (get_and_increment_transaction_id cam).1.handle = cam.handle := rfl

theorem get_and_increment_ep_out (cam : CameraBase) :
    (get_and_increment_transaction_id cam).1.ep_out = cam.ep_out := rfl

theorem get_and_increment_ep_in (cam : CameraBase) :
    (get_and_increment_transaction_id cam).1.ep_in = cam.ep_in := rfl

/-- With a `NULL` handle the first write throws; `cmd` is stamped already and
the counter has advanced. -/
theorem send_not_open (codec : Codec) (cam : CameraBase) (w : USB) (cmd : PTPContainer)
    (data : Option PTPContainer) (h : cam.handle = none) :
    ptp_transaction_send codec cam w cmd data =
      ⟨(get_and_increment_transaction_id cam).1, w,
        { cmd with transaction_id := to_uint32 (get_and_increment_transaction_id cam).2 },
        data, some PTPError.ERR_NOT_OPEN⟩ := by
  have h1 := get_and_increment_handle cam
  rw [h] at h1
  simp only [ptp_transaction_send, send_ptp_message, _bulk_write, h1]

/-- With an open handle and no data container: one write. -/
theorem send_open_none (codec : Codec) (cam : CameraBase) (w : USB) (cmd : PTPContainer)
    (hd : Nat) (h : cam.handle = some hd) :
    ptp_transaction_send codec cam w cmd none =
      ⟨(get_and_increment_transaction_id cam).1,
        (libusb_bulk_out w cam.ep_out
          (codec.pack { cmd with transaction_id := to_uint32 (get_and_increment_transaction_id cam).2 })
          (to_int (codec.get_length
            { cmd with transaction_id := to_uint32 (get_and_increment_transaction_id cam).2 }))).1,
        { cmd with transaction_id := to_uint32 (get_and_increment_transaction_id cam).2 },
        none, none⟩ := by
  have h1 := get_and_increment_handle cam
  rw [h] at h1
  unfold ptp_transaction_send send_ptp_message
  dsimp only
  rw [bulk_write_open _ _ _ _ hd h1, get_and_increment_ep_out]

/-- With an open handle and a data container: two writes, the command first. -/
theorem send_open_some (codec : Codec) (cam : CameraBase) (w : USB) (cmd d : PTPContainer)
    (hd : Nat) (h : cam.handle = some hd) :
    ptp_transaction_send codec cam w cmd (some d) =
      ⟨(get_and_increment_transaction_id cam).1,
        (libusb_bulk_out
          (libusb_bulk_out w cam.ep_out
            (codec.pack { cmd with transaction_id := to_uint32 (get_and_increment_transaction_id cam).2 })
            (to_int (codec.get_length
              { cmd with transaction_id := to_uint32 (get_and_increment_transaction_id cam).2 }))).1
          cam.ep_out
          (codec.pack { d with transaction_id := to_uint32 (get_and_increment_transaction_id cam).2 })
          (to_int (codec.get_length
            { d with transaction_id := to_uint32 (get_and_increment_transaction_id cam).2 }))).1,
        { cmd with transaction_id := to_uint32 (get_and_increment_transaction_id cam).2 },
        some { d with transaction_id := to_uint32 (get_and_increment_transaction_id cam).2 },
        none⟩ := by
  have h1 := get_and_increment_handle cam
  rw [h] at h1
  unfold ptp_transaction_send send_ptp_message
  dsimp only
  rw [bulk_write_open _ _ _ _ hd h1, get_and_increment_ep_out]
  dsimp only
  rw [bulk_write_open _ _ _ _ hd h1, get_and_increment_ep_out]

theorem send_cam (codec : Codec) (cam : CameraBase) (w : USB) (cmd : PTPContainer)
    (data : Option PTPContainer) :
    (ptp_transaction_send codec cam w cmd data).cam = (get_and_increment_transaction_id cam).1 := by
  cases h : cam.handle with
  | none => rw [send_not_open codec cam w cmd data h]
  | some hd =>
    cases data with
    | none => rw [send_open_none codec cam w cmd hd h]
    | some d => rw [send_open_some codec cam w cmd d hd h]

theorem send_cmd (codec : Codec) (cam : CameraBase) (w : USB) (cmd : PTPContainer)
    (data : Option PTPContainer) :
    (ptp_transaction_send codec cam w cmd data).cmd =
      { cmd with transaction_id := to_uint32 (get_and_increment_transaction_id cam).2 } := by
  cases h : cam.handle with
  | none => rw [send_not_open codec cam w cmd data h]
  | some hd =>
    cases data with
    | none => rw [send_open_none codec cam w cmd hd h]
    | some d => rw [send_open_some codec cam w cmd d hd h]

theorem send_thrown_open (codec : Codec) (cam : CameraBase) (w : USB) (cmd : PTPContainer)
    (data : Option PTPContainer) (hd : Nat) (h : cam.handle = some hd) :
    (ptp_transaction_send codec cam w cmd data).thrown = none := by
  cases data with
  | none => rw [send_open_none codec cam w cmd hd h]
  | some d => rw [send_open_some codec cam w cmd d hd h]

/-- The write phase makes no entry into `recv_ptp_message`. -/
theorem recv_calls_send (codec : Codec) (cam : CameraBase) (w : USB) (cmd : PTPContainer)
    (data : Option PTPContainer) :
    recv_calls (ptp_transaction_send codec cam w cmd data).usb.trace = recv_calls w.trace := by
  cases h : cam.handle with
  | none => rw [send_not_open codec cam w cmd data h]
  | some hd =>
    cases data with
    | none =>
      rw [send_open_none codec cam w cmd hd h]
      simp [libusb_bulk_out, USB.emit, recv_calls]
    | some d =>
      rw [send_open_some codec cam w cmd d hd h]
      simp [libusb_bulk_out, USB.emit, recv_calls]

/-- A receive that returns normally was made on an open handle. -/
theorem recv_ok_open (codec : Codec) (cam : CameraBase) (w : USB) (out : Option PTPContainer)
    (h : (recv_ptp_message codec cam w out).thrown = none) : ∃ hd, cam.handle = some hd := by
  cases hh : cam.handle with
  | none =>
    rw [recv_not_open codec cam w out hh] at h
    simp at h
  | some hd => exact ⟨hd, rfl⟩

/-- The whole call on an open handle: the write phase followed by the read
phase. -/
theorem ptp_transaction_open (codec : Codec) (cam : CameraBase) (w : USB) (cmd : PTPContainer)
    (data : Option PTPContainer) (receiving : Bool) (out_resp out_data : Option PTPContainer)
    (hd : Nat) (h : cam.handle = some hd) :
    ptp_transaction codec cam w cmd data receiving out_resp out_data =
      ⟨(ptp_transaction_send codec cam w cmd data).cam,
        (ptp_transaction_receive codec (ptp_transaction_send codec cam w cmd data).cam
          (ptp_transaction_send codec cam w cmd data).usb receiving out_resp out_data).usb,
        (ptp_transaction_send codec cam w cmd data).cmd,
        (ptp_transaction_send codec cam w cmd data).data,
        (ptp_transaction_receive codec (ptp_transaction_send codec cam w cmd data).cam
          (ptp_transaction_send codec cam w cmd data).usb receiving out_resp out_data).out_resp,
        (ptp_transaction_receive codec (ptp_transaction_send codec cam w cmd data).cam
          (ptp_transaction_send codec cam w cmd data).usb receiving out_resp out_data).out_data,
        (ptp_transaction_receive codec (ptp_transaction_send codec cam w cmd data).cam
          (ptp_transaction_send codec cam w cmd data).usb receiving out_resp out_data).thrown⟩ := by
  have ht := send_thrown_open codec cam w cmd data hd h
  unfold ptp_transaction
  dsimp only
  rw [ht]

/-! ### The read phase -/

/-- Line 258, reached with `receiving` false. -/
theorem receive_not_receiving (codec : Codec) (cam : CameraBase) (w : USB)
    (out_resp out_data : Option PTPContainer) :
    ptp_transaction_receive codec cam w false out_resp out_data =
      ⟨(recv_ptp_message codec cam w out_resp).usb, (recv_ptp_message codec cam w out_resp).out,
        out_data, (recv_ptp_message codec cam w out_resp).thrown⟩ := by
  simp [ptp_transaction_receive, ptp_transaction_read_anyway]

/-- The first receive throws: the call aborts there. -/
theorem receive_first_throws (codec : Codec) (cam : CameraBase) (w : USB)
    (out_resp out_data : Option PTPContainer) (e : PTPError)
    (h : (recv_ptp_message codec cam w (some codec.empty)).thrown = some e) :
    ptp_transaction_receive codec cam w true out_resp out_data =
      ⟨(recv_ptp_message codec cam w (some codec.empty)).usb, out_resp, out_data, some e⟩ := by
  unfold ptp_transaction_receive
  simp only [if_true]
  rw [h]

/-- The first receive yields a Response: lines 245-252, no further read. -/
theorem receive_response (codec : Codec) (cam : CameraBase) (w : USB)
    (out_resp out_data : Option PTPContainer) (c : PTPContainer)
    (ht : (recv_ptp_message codec cam w (some codec.empty)).thrown = none)
    (ho : (recv_ptp_message codec cam w (some codec.empty)).out = some c)
    (hk : c.type = CONTAINER_TYPE_RESPONSE) :
    ptp_transaction_receive codec cam w true out_resp out_data =
      ⟨(recv_ptp_message codec cam w (some codec.empty)).usb,
        (unpack_into codec out_resp (codec.pack c)).1, out_data,
        (unpack_into codec out_resp (codec.pack c)).2⟩ := by
  have hne : ¬ c.type = CONTAINER_TYPE_DATA := by
    rw [hk]; decide
  unfold ptp_transaction_receive
  simp only [if_true]
  rw [ht]
  simp only [ho, Option.getD_some, if_neg hne, if_pos hk]

/-- The first receive yields a Data container that is copied without failure:
lines 237-244, then line 258. -/
theorem receive_data (codec : Codec) (cam : CameraBase) (w : USB)
    (out_resp out_data : Option PTPContainer) (c : PTPContainer)
    (ht : (recv_ptp_message codec cam w (some codec.empty)).thrown = none)
    (ho : (recv_ptp_message codec cam w (some codec.empty)).out = some c)
    (hk : c.type = CONTAINER_TYPE_DATA)
    (hu : (unpack_into codec out_data (codec.pack c)).2 = none) :
    ptp_transaction_receive codec cam w true out_resp out_data =
      ⟨(recv_ptp_message codec cam (recv_ptp_message codec cam w (some codec.empty)).usb
          out_resp).usb,
        (recv_ptp_message codec cam (recv_ptp_message codec cam w (some codec.empty)).usb
          out_resp).out,
        (unpack_into codec out_data (codec.pack c)).1,
        (recv_ptp_message codec cam (recv_ptp_message codec cam w (some codec.empty)).usb
          out_resp).thrown⟩ := by
  unfold ptp_transaction_receive
  simp only [if_true]
  rw [ht]
  simp only [ho, Option.getD_some, if_pos hk]
  rw [hu]
  simp only [ptp_transaction_read_anyway]

/-- The first receive yields a container that is neither Data nor Response:
it is dropped, then line 258. -/
theorem receive_other (codec : Codec) (cam : CameraBase) (w : USB)
    (out_resp out_data : Option PTPContainer) (c : PTPContainer)
    (ht : (recv_ptp_message codec cam w (some codec.empty)).thrown = none)
    (ho : (recv_ptp_message codec cam w (some codec.empty)).out = some c)
    (hd : ¬ c.type = CONTAINER_TYPE_DATA) (hr : ¬ c.type = CONTAINER_TYPE_RESPONSE) :
    ptp_transaction_receive codec cam w true out_resp out_data =
      ⟨(recv_ptp_message codec cam (recv_ptp_message codec cam w (some codec.empty)).usb
          out_resp).usb,
        (recv_ptp_message codec cam (recv_ptp_message codec cam w (some codec.empty)).usb
          out_resp).out,
        out_data,
        (recv_ptp_message codec cam (recv_ptp_message codec cam w (some codec.empty)).usb
          out_resp).thrown⟩ := by
  unfold ptp_transaction_receive
  simp only [if_true]
  rw [ht]
  simp only [ho, Option.getD_some, if_neg hd, if_neg hr, ptp_transaction_read_anyway]

theorem unpack_into_some (codec : Codec) (old c : PTPContainer) (bytes : List Nat)
    (h : codec.unpack bytes = some c) :
    unpack_into codec (some old) bytes = (some c, none) := by
  simp [unpack_into, h]

theorem unpack_into_none (codec : Codec) (bytes : List Nat) :
    unpack_into codec none bytes = (none, none) := rfl

/-! ## C1: response-only exchange -/

/-- C1. Response-only exchange.  In a `ptp_transaction` call with `receiving`
true and a non-null `out_resp`, if the first container received (the result
`c` of the first `recv_ptp_message`) has kind Response and the codec satisfies
`unpack(pack(c)) = c`, then the call returns normally, `out_resp` holds `c`,
`out_data` is untouched and `recv_ptp_message` has been entered exactly once. -/
theorem response_only_exchange (codec : Codec) (cam : CameraBase) (w : USB)
    (cmd : PTPContainer) (data : Option PTPContainer) (resp0 : PTPContainer)
    (out_data : Option PTPContainer) (c : PTPContainer)
    (hreturns : (first_recv codec cam w cmd data).thrown = none)
    (hfirst : (first_recv codec cam w cmd data).out = some c)
    (hkind : c.type = CONTAINER_TYPE_RESPONSE)
    (hcodec : codec.unpack (codec.pack c) = some c) :
    (ptp_transaction codec cam w cmd data true (some resp0) out_data).thrown = none ∧
    (ptp_transaction codec cam w cmd data true (some resp0) out_data).out_resp = some c ∧
    (ptp_transaction codec cam w cmd data true (some resp0) out_data).out_data = out_data ∧
    recv_calls (ptp_transaction codec cam w cmd data true (some resp0) out_data).usb.trace
      = recv_calls w.trace + 1 := by
  obtain ⟨hd, hopen⟩ := recv_ok_open codec _ _ _ hreturns
  rw [send_cam, get_and_increment_handle] at hopen
  unfold first_recv at hreturns hfirst
  rw [ptp_transaction_open codec cam w cmd data true (some resp0) out_data hd hopen,
    receive_response codec _ _ (some resp0) out_data c hreturns hfirst hkind,
    unpack_into_some codec resp0 c _ hcodec]
  refine ⟨rfl, rfl, rfl, ?_⟩
  simp only [recv_calls_recv, recv_calls_send]

/-- C1 at a concrete input: command `0x1001`, the device answers with the
Response `0x2001` carrying one parameter `0`. -/
theorem response_only_exchange_witness :
    ((first_recv spec_codec demo_cam (demo_usb [⟨0, spec_pack demo_response⟩]) demo_cmd
        none).thrown = none ∧
     (first_recv spec_codec demo_cam (demo_usb [⟨0, spec_pack demo_response⟩]) demo_cmd
        none).out = some demo_response ∧
     demo_response.type = CONTAINER_TYPE_RESPONSE ∧
     spec_codec.unpack (spec_codec.pack demo_response) = some demo_response) ∧
    (ptp_transaction spec_codec demo_cam (demo_usb [⟨0, spec_pack demo_response⟩]) demo_cmd
        none true (some demo_cmd) (some demo_cmd)).thrown = none ∧
    (ptp_transaction spec_codec demo_cam (demo_usb [⟨0, spec_pack demo_response⟩]) demo_cmd
        none true (some demo_cmd) (some demo_cmd)).out_resp = some demo_response ∧
    (ptp_transaction spec_codec demo_cam (demo_usb [⟨0, spec_pack demo_response⟩]) demo_cmd
        none true (some demo_cmd) (some demo_cmd)).out_data = some demo_cmd ∧
    recv_calls (ptp_transaction spec_codec demo_cam (demo_usb [⟨0, spec_pack demo_response⟩])
        demo_cmd none true (some demo_cmd) (some demo_cmd)).usb.trace
      = recv_calls (demo_usb [⟨0, spec_pack demo_response⟩]).trace + 1 :=
  ⟨⟨by decide, by decide, by decide, by decide⟩,
    response_only_exchange spec_codec demo_cam (demo_usb [⟨0, spec_pack demo_response⟩])
      demo_cmd none demo_cmd (some demo_cmd) demo_response (by decide) (by decide) (by decide)
      (by decide)⟩

/-! ## C2: data-then-response exchange -/

/-- C2. Data-then-Response exchange.  In a `ptp_transaction` call with
`receiving` true and non-null `out_data` and `out_resp`, if the first container
received is `d` of kind Data, the codec satisfies `unpack(pack(d)) = d`, and the
next receive yields the container `r` (the Response of the exchange; its kind
is not used), then the call returns normally, `out_data`
holds `d`, `out_resp` holds `r` and `recv_ptp_message` has been entered exactly
twice. -/
theorem data_then_response_exchange (codec : Codec) (cam : CameraBase) (w : USB)
    (cmd : PTPContainer) (data : Option PTPContainer) (resp0 data0 d r : PTPContainer)
    (hreturns : (first_recv codec cam w cmd data).thrown = none)
    (hfirst : (first_recv codec cam w cmd data).out = some d)
    (hkind : d.type = CONTAINER_TYPE_DATA)
    (hcodec : codec.unpack (codec.pack d) = some d)
    (hreturns2 : (second_recv codec cam w cmd data (some resp0)).thrown = none)
    (hsecond : (second_recv codec cam w cmd data (some resp0)).out = some r) :
    (ptp_transaction codec cam w cmd data true (some resp0) (some data0)).thrown = none ∧
    (ptp_transaction codec cam w cmd data true (some resp0) (some data0)).out_data = some d ∧
    (ptp_transaction codec cam w cmd data true (some resp0) (some data0)).out_resp = some r ∧
    recv_calls (ptp_transaction codec cam w cmd data true (some resp0) (some data0)).usb.trace
      = recv_calls w.trace + 2 := by
  obtain ⟨hd, hopen⟩ := recv_ok_open codec _ _ _ hreturns
  rw [send_cam, get_and_increment_handle] at hopen
  unfold second_recv at hreturns2 hsecond
  unfold first_recv at hreturns hfirst hreturns2 hsecond
  have hu : (unpack_into codec (some data0) (codec.pack d)).2 = none := by
    rw [unpack_into_some codec data0 d _ hcodec]
  rw [ptp_transaction_open codec cam w cmd data true (some resp0) (some data0) hd hopen,
    receive_data codec _ _ (some resp0) (some data0) d hreturns hfirst hkind hu,
    unpack_into_some codec data0 d _ hcodec]
  refine ⟨hreturns2, rfl, hsecond, ?_⟩
  simp only [recv_calls_recv, recv_calls_send]

/-- C2 at a concrete input: command `0x1001` with the data "hello"; the device
answers with Data `[0x01, 0x02]`, then with the Response `0x2001`. -/
theorem data_then_response_exchange_witness :
    ((first_recv spec_codec demo_cam
        (demo_usb [⟨0, spec_pack demo_data_in⟩, ⟨0, spec_pack demo_response⟩]) demo_cmd
        (some demo_data_out)).thrown = none ∧
     (first_recv spec_codec demo_cam
        (demo_usb [⟨0, spec_pack demo_data_in⟩, ⟨0, spec_pack demo_response⟩]) demo_cmd
        (some demo_data_out)).out = some demo_data_in ∧
     demo_data_in.type = CONTAINER_TYPE_DATA ∧
     spec_codec.unpack (spec_codec.pack demo_data_in) = some demo_data_in ∧
     (second_recv spec_codec demo_cam
        (demo_usb [⟨0, spec_pack demo_data_in⟩, ⟨0, spec_pack demo_response⟩]) demo_cmd
        (some demo_data_out) (some demo_cmd)).thrown = none ∧
     (second_recv spec_codec demo_cam
        (demo_usb [⟨0, spec_pack demo_data_in⟩, ⟨0, spec_pack demo_response⟩]) demo_cmd
        (some demo_data_out) (some demo_cmd)).out = some demo_response) ∧
    (ptp_transaction spec_codec demo_cam
        (demo_usb [⟨0, spec_pack demo_data_in⟩, ⟨0, spec_pack demo_response⟩]) demo_cmd
        (some demo_data_out) true (some demo_cmd) (some demo_cmd)).thrown = none ∧
    (ptp_transaction spec_codec demo_cam
        (demo_usb [⟨0, spec_pack demo_data_in⟩, ⟨0, spec_pack demo_response⟩]) demo_cmd
        (some demo_data_out) true (some demo_cmd) (some demo_cmd)).out_data
      = some demo_data_in ∧
    (ptp_transaction spec_codec demo_cam
        (demo_usb [⟨0, spec_pack demo_data_in⟩, ⟨0, spec_pack demo_response⟩]) demo_cmd
        (some demo_data_out) true (some demo_cmd) (some demo_cmd)).out_resp
      = some demo_response ∧
    recv_calls (ptp_transaction spec_codec demo_cam
        (demo_usb [⟨0, spec_pack demo_data_in⟩, ⟨0, spec_pack demo_response⟩]) demo_cmd
        (some demo_data_out) true (some demo_cmd) (some demo_cmd)).usb.trace
      = recv_calls (demo_usb [⟨0, spec_pack demo_data_in⟩,
          ⟨0, spec_pack demo_response⟩]).trace + 2 :=
  ⟨⟨by decide, by decide, by decide, by decide, by decide, by decide⟩,
    data_then_response_exchange spec_codec demo_cam
      (demo_usb [⟨0, spec_pack demo_data_in⟩, ⟨0, spec_pack demo_response⟩]) demo_cmd
      (some demo_data_out) demo_cmd demo_cmd demo_data_in demo_response
      (by decide) (by decide) (by decide) (by decide) (by decide) (by decide)⟩

/-! ## C3: transaction ids -/

/-- A `uint32_t` survives the passage through the `int` return type. -/
theorem to_uint32_to_int (n : Nat) : to_uint32 (to_int n) = n % 2 ^ 32 := by
  unfold to_uint32 to_int
  norm_num
  split_ifs <;> omega

theorem after_ids_counter (cam : CameraBase) (n : Nat) :
    (after_ids cam n)._transaction_id % 2 ^ 32 = (cam._transaction_id + n) % 2 ^ 32 := by
  induction n with
  | zero => rfl
  | succ k ih =>
    simp only [after_ids, get_and_increment_transaction_id]
    norm_num at ih ⊢
    omega

theorem ptp_transaction_cam (codec : Codec) (cam : CameraBase) (w : USB) (cmd : PTPContainer)
    (data : Option PTPContainer) (receiving : Bool) (out_resp out_data : Option PTPContainer) :
    (ptp_transaction codec cam w cmd data receiving out_resp out_data).cam
      = (get_and_increment_transaction_id cam).1 := by
  unfold ptp_transaction
  dsimp only
  split <;> exact send_cam codec cam w cmd data

theorem ptp_transaction_cmd (codec : Codec) (cam : CameraBase) (w : USB) (cmd : PTPContainer)
    (data : Option PTPContainer) (receiving : Bool) (out_resp out_data : Option PTPContainer) :
    (ptp_transaction codec cam w cmd data receiving out_resp out_data).cmd
      = { cmd with transaction_id := to_uint32 (get_and_increment_transaction_id cam).2 } := by
  unfold ptp_transaction
  dsimp only
  split <;> exact send_cmd codec cam w cmd data

/-- The ids stamped by sequential calls, from any counter value. -/
theorem run_transactions_ids (codec : Codec) (calls : List Call) :
    ∀ (cam : CameraBase) (w : USB),
      (run_transactions codec cam w calls).map (fun r => r.cmd.transaction_id)
        = (List.range calls.length).map (fun k => (cam._transaction_id + k) % 2 ^ 32) := by
  induction calls with
  | nil => intro cam w; rfl
  | cons c cs ih =>
    intro cam w
    simp only [run_transactions, List.map_cons, List.length_cons, List.range_succ_eq_map,
      List.map_map]
    rw [ih, ptp_transaction_cam, ptp_transaction_cmd]
    simp only [get_and_increment_transaction_id, to_uint32_to_int, Nat.add_zero]
    congr 1
    apply List.map_congr_left
    intro k _
    simp only [Function.comp]
    omega

/-- C3. Transaction ids are allocated in sequence from 0.  On a connection
whose counter is as `init` leaves it, the `n`-th call (from 0) of
`get_and_increment_transaction_id` returns a value that, stored into the 32-bit
`transaction_id` field, is `n mod 2^32`, and leaves the counter at
`(n + 1) mod 2^32`; the ids stamped into the commands of sequential
`ptp_transaction` calls are `0, 1, .., N-1` modulo `2^32`. -/
theorem transaction_ids_in_sequence (codec : Codec) (cam0 cam : CameraBase) (w : USB)
    (n : Nat) (calls : List Call)
    (hfresh : cam._transaction_id = (init cam0)._transaction_id) :
    (init cam0)._transaction_id = 0 ∧
    to_uint32 (get_and_increment_transaction_id (after_ids cam n)).2 = n % 2 ^ 32 ∧
    (get_and_increment_transaction_id (after_ids cam n)).1._transaction_id
      = (n + 1) % 2 ^ 32 ∧
    (run_transactions codec cam w calls).map (fun r => r.cmd.transaction_id)
      = (List.range calls.length).map (fun k => k % 2 ^ 32) := by
  have h0 : cam._transaction_id = 0 := hfresh
  have hc := after_ids_counter cam n
  rw [h0, Nat.zero_add] at hc
  refine ⟨rfl, ?_, ?_, ?_⟩
  · simp only [get_and_increment_transaction_id, to_uint32_to_int]
    exact hc
  · simp only [get_and_increment_transaction_id]
    norm_num at hc ⊢
    omega
  · rw [run_transactions_ids, h0]
    simp only [Nat.zero_add]

/-- C3 at a concrete input: the call number `2^32 - 1` on an open connection
(the counter wraps to 0 after it), and three transactions in a row. -/
theorem transaction_ids_in_sequence_witness :
    demo_cam._transaction_id = (init demo_cam)._transaction_id ∧
    ((init demo_cam)._transaction_id = 0 ∧
     to_uint32 (get_and_increment_transaction_id (after_ids demo_cam 4294967295)).2
       = 4294967295 % 2 ^ 32 ∧
     (get_and_increment_transaction_id (after_ids demo_cam 4294967295)).1._transaction_id
       = (4294967295 + 1) % 2 ^ 32 ∧
     (run_transactions spec_codec demo_cam
         (demo_usb [⟨0, spec_pack demo_response⟩]) demo_calls).map
         (fun r => r.cmd.transaction_id)
       = (List.range demo_calls.length).map (fun k => k % 2 ^ 32)) :=
  ⟨rfl, transaction_ids_in_sequence spec_codec demo_cam demo_cam
    (demo_usb [⟨0, spec_pack demo_response⟩]) 4294967295 demo_calls rfl⟩

/-! ## C4: the fallback response read -/

/-- C4. Fallback response read.  On an open connection, when the receive step
yields no response (`receiving` is false, or it is true and the first container
received, `c0`, has a kind other than Response; a Data container is then first
copied to `out_data`, which is taken not to fail), exactly one further
`recv_ptp_message` call is made, directly into `out_resp`: the call ends as
that receive ends, and whatever container `c` it returns is in `out_resp`, of
any kind.  With `receiving` false it is the only receive of the call and
`out_data` is not written. -/
theorem fallback_response_read (codec : Codec) (cam : CameraBase) (w : USB)
    (cmd : PTPContainer) (data : Option PTPContainer) (receiving : Bool)
    (out_resp out_data : Option PTPContainer) (hd : Nat)
    (hopen : cam.handle = some hd)
    (hno : receiving = false ∨
      (receiving = true ∧ ∃ c0,
        (first_recv codec cam w cmd data).thrown = none ∧
        (first_recv codec cam w cmd data).out = some c0 ∧
        c0.type ≠ CONTAINER_TYPE_RESPONSE ∧
        (c0.type = CONTAINER_TYPE_DATA →
          (unpack_into codec out_data (codec.pack c0)).2 = none))) :
    (ptp_transaction codec cam w cmd data receiving out_resp out_data).thrown
      = (if receiving then second_recv codec cam w cmd data out_resp
         else only_recv codec cam w cmd data out_resp).thrown ∧
    (ptp_transaction codec cam w cmd data receiving out_resp out_data).out_resp
      = (if receiving then second_recv codec cam w cmd data out_resp
         else only_recv codec cam w cmd data out_resp).out ∧
    (∀ c, (if receiving then second_recv codec cam w cmd data out_resp
           else only_recv codec cam w cmd data out_resp).thrown = none →
          (if receiving then second_recv codec cam w cmd data out_resp
           else only_recv codec cam w cmd data out_resp).out = some c →
      (ptp_transaction codec cam w cmd data receiving out_resp out_data).thrown = none ∧
      (ptp_transaction codec cam w cmd data receiving out_resp out_data).out_resp = some c) ∧
    recv_calls (ptp_transaction codec cam w cmd data receiving out_resp out_data).usb.trace
      = recv_calls w.trace + (if receiving then 2 else 1) ∧
    (receiving = false →
      (ptp_transaction codec cam w cmd data receiving out_resp out_data).out_data = out_data) := by
  have key :
      (ptp_transaction codec cam w cmd data receiving out_resp out_data).thrown
        = (if receiving then second_recv codec cam w cmd data out_resp
           else only_recv codec cam w cmd data out_resp).thrown ∧
      (ptp_transaction codec cam w cmd data receiving out_resp out_data).out_resp
        = (if receiving then second_recv codec cam w cmd data out_resp
           else only_recv codec cam w cmd data out_resp).out ∧
      recv_calls (ptp_transaction codec cam w cmd data receiving out_resp out_data).usb.trace
        = recv_calls w.trace + (if receiving then 2 else 1) ∧
      (receiving = false →
        (ptp_transaction codec cam w cmd data receiving out_resp out_data).out_data
          = out_data) := by
    rw [ptp_transaction_open codec cam w cmd data receiving out_resp out_data hd hopen]
    rcases hno with hf | ⟨ht, c0, hthrown, hout, hkind, hcopy⟩
    · subst hf
      rw [receive_not_receiving]
      simp [only_recv, recv_calls_recv, recv_calls_send]
    · subst ht
      unfold first_recv at hthrown hout
      by_cases hdata : c0.type = CONTAINER_TYPE_DATA
      · rw [receive_data codec _ _ out_resp out_data c0 hthrown hout hdata (hcopy hdata)]
        simp [second_recv, first_recv, recv_calls_recv, recv_calls_send]
      · rw [receive_other codec _ _ out_resp out_data c0 hthrown hout hdata hkind]
        simp [second_recv, first_recv, recv_calls_recv, recv_calls_send]
  refine ⟨key.1, key.2.1, ?_, key.2.2.1, key.2.2.2⟩
  intro c ht ho
  exact ⟨key.1.trans ht, key.2.1.trans ho⟩

/-- C4 at a concrete input: `receiving` is true, the device sends a Data
container and then an Event container; the Event ends up in `out_resp`. -/
theorem fallback_response_read_witness :
    (demo_cam.handle = some 1 ∧
     (first_recv spec_codec demo_cam
        (demo_usb [⟨0, spec_pack demo_data_in⟩, ⟨0, spec_pack demo_event⟩]) demo_cmd
        none).out = some demo_data_in ∧
     demo_data_in.type ≠ CONTAINER_TYPE_RESPONSE ∧
     (second_recv spec_codec demo_cam
        (demo_usb [⟨0, spec_pack demo_data_in⟩, ⟨0, spec_pack demo_event⟩]) demo_cmd
        none (some demo_cmd)).thrown = none ∧
     (second_recv spec_codec demo_cam
        (demo_usb [⟨0, spec_pack demo_data_in⟩, ⟨0, spec_pack demo_event⟩]) demo_cmd
        none (some demo_cmd)).out = some demo_event) ∧
    (ptp_transaction spec_codec demo_cam
        (demo_usb [⟨0, spec_pack demo_data_in⟩, ⟨0, spec_pack demo_event⟩]) demo_cmd
        none true (some demo_cmd) (some demo_cmd)).thrown = none ∧
    (ptp_transaction spec_codec demo_cam
        (demo_usb [⟨0, spec_pack demo_data_in⟩, ⟨0, spec_pack demo_event⟩]) demo_cmd
        none true (some demo_cmd) (some demo_cmd)).out_resp = some demo_event :=
  ⟨⟨rfl, by decide, by decide, by decide, by decide⟩,
    (fallback_response_read spec_codec demo_cam
      (demo_usb [⟨0, spec_pack demo_data_in⟩, ⟨0, spec_pack demo_event⟩]) demo_cmd
      none true (some demo_cmd) (some demo_cmd) 1 rfl
      (Or.inr ⟨rfl, demo_data_in, by decide, by decide, by decide,
        fun _ => by decide⟩)).2.2.1 demo_event (by decide) (by decide)⟩

/-! ## C5: a short first read is fatal -/

/-- C5. Short read is fatal.  On an open connection, a `recv_ptp_message` call
whose first transport read transfers fewer than 4 bytes throws
`ERR_CANNOT_RECV`, has made that one transport read and no other, and leaves
the output container as it was; when the first read transfers at least 4 bytes
`ERR_CANNOT_RECV` is not thrown. -/
theorem short_read_is_fatal (codec : Codec) (cam : CameraBase) (w : USB)
    (out : Option PTPContainer) (hd : Nat) (hopen : cam.handle = some hd) :
    (first_count cam w < 4 →
      (recv_ptp_message codec cam w out).thrown = some PTPError.ERR_CANNOT_RECV ∧
      (recv_ptp_message codec cam w out).out = out ∧
      (recv_ptp_message codec cam w out).usb.trace
        = w.trace ++ [Event.recv_ptp_message, Event.bulk_in cam.ep_in Dest.buffer 512] ∧
      reads (recv_ptp_message codec cam w out).usb.trace
        = reads w.trace ++ [Event.bulk_in cam.ep_in Dest.buffer 512]) ∧
    (4 ≤ first_count cam w →
      (recv_ptp_message codec cam w out).thrown ≠ some PTPError.ERR_CANNOT_RECV) := by
  constructor
  · intro hs
    rw [recv_short codec cam w out hd hopen hs]
    refine ⟨rfl, rfl, first_read_trace cam w, ?_⟩
    simp [first_read_trace, reads, Event.is_read]
  · intro hge
    have hs : ¬ first_count cam w < 4 := Nat.not_lt.mpr hge
    have hu : ∀ bytes, (unpack_into codec out bytes).2 ≠ some PTPError.ERR_CANNOT_RECV := by
      intro bytes
      unfold unpack_into
      cases out with
      | none => simp
      | some old => cases codec.unpack bytes <;> simp
    by_cases hlt : declared_size (first_buffer cam w) < 512
    · rw [recv_small codec cam w out hd hopen hs hlt]
      exact hu _
    · rw [recv_large codec cam w out hd hopen hs hlt]
      exact hu _

/-- C5 at a concrete input: the device delivers three bytes. -/
theorem short_read_is_fatal_witness :
    (demo_cam.handle = some 1 ∧ first_count demo_cam (demo_usb [⟨0, [12, 0, 0]⟩]) < 4) ∧
    (recv_ptp_message spec_codec demo_cam (demo_usb [⟨0, [12, 0, 0]⟩]) (some demo_cmd)).thrown
      = some PTPError.ERR_CANNOT_RECV ∧
    (recv_ptp_message spec_codec demo_cam (demo_usb [⟨0, [12, 0, 0]⟩]) (some demo_cmd)).out
      = some demo_cmd ∧
    (recv_ptp_message spec_codec demo_cam (demo_usb [⟨0, [12, 0, 0]⟩])
        (some demo_cmd)).usb.trace
      = (demo_usb [⟨0, [12, 0, 0]⟩]).trace
        ++ [Event.recv_ptp_message, Event.bulk_in demo_cam.ep_in Dest.buffer 512] ∧
    reads (recv_ptp_message spec_codec demo_cam (demo_usb [⟨0, [12, 0, 0]⟩])
        (some demo_cmd)).usb.trace
      = reads (demo_usb [⟨0, [12, 0, 0]⟩]).trace
        ++ [Event.bulk_in demo_cam.ep_in Dest.buffer 512] :=
  ⟨⟨rfl, by decide⟩,
    (short_read_is_fatal spec_codec demo_cam (demo_usb [⟨0, [12, 0, 0]⟩]) (some demo_cmd) 1
      rfl).1 (by decide)⟩

/-! ## C6: what `recv_ptp_message` hands to `unpack` -/

theorem overwrite_length (buf src : List Nat) (off : Nat) (h : off + src.length ≤ buf.length) :
    (overwrite buf off src).length = buf.length := by
  simp only [overwrite, List.length_append, List.length_take, List.length_drop]
  omega

theorem overwrite_all (buf src : List Nat) (h : src.length = buf.length) :
    overwrite buf 0 src = src := by
  simp [overwrite, h]

theorem new_bytes_length (w : USB) (n : Nat) : (w.new_bytes n).2.length = n := by
  simp [USB.new_bytes]

theorem first_count_le (cam : CameraBase) (w : USB) : first_count cam w ≤ 512 := by
  simp only [first_count, first_read, libusb_bulk_in, List.length_take]
  exact Nat.le_trans (Nat.min_le_left _ _) (by decide)

theorem first_buffer_length (cam : CameraBase) (w : USB) : (first_buffer cam w).length = 512 := by
  have h := first_count_le cam w
  unfold first_count at h
  unfold first_buffer
  rw [overwrite_length _ _ _ (by rw [new_bytes_length]; omega), new_bytes_length]

/-- The size the code works with is a single byte. -/
theorem declared_size_lt (buffer : List Nat) : declared_size buffer < 256 := by
  unfold declared_size
  exact Nat.mod_lt _ (by norm_num)

/-- The test `size < 512` of line 178 always succeeds. -/
theorem declared_size_lt_chunk (buffer : List Nat) : declared_size buffer < 512 :=
  Nat.lt_trans (declared_size_lt buffer) (by norm_num)

/-- For a declared length below 256 made of bytes, the byte the code reads is
the declared length. -/
theorem declared_size_eq_declared_length (bytes : List Nat)
    (h : declared_length bytes < 256) : declared_size bytes = declared_length bytes := by
  unfold declared_length at h
  unfold declared_size declared_length
  omega

/-- The buffer handed to `unpack` holds the first `size` bytes of `buffer`. -/
theorem final_out_buf_eq (cam : CameraBase) (w : USB) :
    final_out_buf cam w = (first_buffer cam w).take (declared_size (first_buffer cam w)) := by
  have hb := first_buffer_length cam w
  have hlt := declared_size_lt_chunk (first_buffer cam w)
  unfold final_out_buf
  dsimp only
  rw [if_pos hlt]
  apply overwrite_all
  rw [new_bytes_length, List.length_take, hb]
  omega

theorem final_out_buf_length (cam : CameraBase) (w : USB) :
    (final_out_buf cam w).length = declared_size (first_buffer cam w) := by
  have hb := first_buffer_length cam w
  have hlt := declared_size_lt_chunk (first_buffer cam w)
  rw [final_out_buf_eq, List.length_take, hb]
  omega

/-- The first byte of `buffer` is the first byte transferred. -/
theorem declared_size_first_buffer (cam : CameraBase) (w : USB) (h : 1 ≤ first_count cam w) :
    declared_size (first_buffer cam w) = declared_size (first_read cam w).2.2 := by
  unfold first_count at h
  unfold first_buffer overwrite declared_size
  simp only [List.take_zero, List.nil_append, Nat.zero_add]
  rw [List.getD_append _ _ _ _ (by omega)]

/-- The reference `unpack` rejects every buffer shorter than the header. -/
theorem spec_unpack_short (bytes : List Nat) (h : bytes.length < default_length) :
    spec_codec.unpack bytes = none := by
  have hn : ¬ default_length ≤ bytes.length := Nat.not_le.mpr h
  simp [spec_codec, spec_unpack, hn]

/-- The outcome of a receive on an open connection whose first read
transferred at least 4 bytes. -/
theorem recv_outcome (codec : Codec) (cam : CameraBase) (w : USB)
    (out : Option PTPContainer) (hd : Nat) (hopen : cam.handle = some hd)
    (hfour : 4 ≤ first_count cam w) :
    recv_ptp_message codec cam w out
      = ⟨((first_read cam w).1.new_bytes (declared_size (first_buffer cam w))).1,
          (unpack_into codec out (final_out_buf cam w)).1,
          (unpack_into codec out (final_out_buf cam w)).2⟩ :=
  recv_small codec cam w out hd hopen (Nat.not_lt.mpr hfour)
    (declared_size_lt_chunk (first_buffer cam w))

/-- C6, as the code has it.  On an open connection, once the first transport
read has transferred at least 4 bytes, `recv_ptp_message` compares neither the
number of bytes transferred nor the 12-byte header size with the declared
length.  With `out` `NULL` it returns normally.  With `out` not `NULL` it hands
`unpack` the first `size` bytes of `buffer` and ends as `unpack` ends: the
container `unpack` returns is delivered, and the call fails when `unpack`
rejects the buffer.  When the declared length `L` is below 256 that buffer has
exactly `L` bytes, whatever the number of bytes transferred; so for an
`unpack` that rejects buffers shorter than the header, a declared length below
12 makes the call fail. -/
theorem recv_leaves_framing_to_unpack (codec : Codec) (cam : CameraBase) (w : USB)
    (out : Option PTPContainer) (hd : Nat) (hopen : cam.handle = some hd)
    (hfour : 4 ≤ first_count cam w) :
    (recv_ptp_message codec cam w out).out = (unpack_into codec out (final_out_buf cam w)).1 ∧
    (recv_ptp_message codec cam w out).thrown
      = (unpack_into codec out (final_out_buf cam w)).2 ∧
    final_out_buf cam w = (first_buffer cam w).take (declared_size (first_buffer cam w)) ∧
    (out = none → (recv_ptp_message codec cam w out).thrown = none) ∧
    (∀ c, codec.unpack (final_out_buf cam w) = some c → out ≠ none →
      (recv_ptp_message codec cam w out).thrown = none ∧
      (recv_ptp_message codec cam w out).out = some c) ∧
    (codec.unpack (final_out_buf cam w) = none → out ≠ none →
      (recv_ptp_message codec cam w out).thrown = some PTPError.unpack_failed ∧
      (recv_ptp_message codec cam w out).out = out) ∧
    (declared_length (first_read cam w).2.2 < 256 →
      (final_out_buf cam w).length = declared_length (first_read cam w).2.2) ∧
    ((∀ bytes, bytes.length < default_length → codec.unpack bytes = none) →
      declared_length (first_read cam w).2.2 < default_length → out ≠ none →
      (recv_ptp_message codec cam w out).thrown = some PTPError.unpack_failed ∧
      (recv_ptp_message codec cam w out).out = out) := by
  have hrecv := recv_outcome codec cam w out hd hopen hfour
  have hlen : declared_length (first_read cam w).2.2 < 256 →
      (final_out_buf cam w).length = declared_length (first_read cam w).2.2 := by
    intro hL
    rw [final_out_buf_length, declared_size_first_buffer cam w (by omega),
      declared_size_eq_declared_length _ hL]
  have hrej : codec.unpack (final_out_buf cam w) = none → out ≠ none →
      (recv_ptp_message codec cam w out).thrown = some PTPError.unpack_failed ∧
      (recv_ptp_message codec cam w out).out = out := by
    intro hnone hout
    cases out with
    | none => exact absurd rfl hout
    | some old =>
      rw [hrecv]
      simp [unpack_into, hnone]
  refine ⟨by rw [hrecv], by rw [hrecv], final_out_buf_eq cam w, ?_, ?_, hrej, hlen, ?_⟩
  · intro hout
    subst hout
    rw [hrecv]
    rfl
  · intro c hc hout
    cases out with
    | none => exact absurd rfl hout
    | some old =>
      rw [hrecv, unpack_into_some codec old c _ hc]
      exact ⟨rfl, rfl⟩
  · intro hcodec hL hout
    apply hrej _ hout
    apply hcodec
    rw [hlen (Nat.lt_trans hL (by decide))]
    exact hL

/-- C6 fails as stated, in both halves.  First half: the device delivers the
12 header bytes of a Data container that declares 16 bytes and nothing more;
12 bytes are transferred in all, fewer than the declared 16, yet
`recv_ptp_message` returns normally and delivers a container whose four payload
bytes come from the fresh array.  Second half: the device delivers four bytes
that declare a length of 4, below the 12-byte header, to a call made with `out`
`NULL` (as `ptp_transaction` makes it when `out_resp` is `NULL`); the call
returns normally, without any framing error. -/
theorem truncated_container_delivered :
    (first_count demo_cam (demo_usb [⟨0, truncated_data⟩]) = 12 ∧
     declared_length (first_read demo_cam (demo_usb [⟨0, truncated_data⟩])).2.2 = 16 ∧
     reads (recv_ptp_message spec_codec demo_cam (demo_usb [⟨0, truncated_data⟩])
        (some demo_cmd)).usb.trace = [Event.bulk_in 129 Dest.buffer 512] ∧
     (recv_ptp_message spec_codec demo_cam (demo_usb [⟨0, truncated_data⟩])
        (some demo_cmd)).thrown = none ∧
     (recv_ptp_message spec_codec demo_cam (demo_usb [⟨0, truncated_data⟩])
        (some demo_cmd)).out
       = some { length := 16, payload := [0, 0, 0, 0], type := 2, code := 4097,
                transaction_id := 0 }) ∧
    (first_count demo_cam (demo_usb [⟨0, [4, 0, 0, 0]⟩]) = 4 ∧
     declared_length (first_read demo_cam (demo_usb [⟨0, [4, 0, 0, 0]⟩])).2.2 = 4 ∧
     (recv_ptp_message spec_codec demo_cam (demo_usb [⟨0, [4, 0, 0, 0]⟩]) none).thrown
       = none) :=
  ⟨⟨by decide, by decide, by decide, by decide, by decide⟩, by decide, by decide, by decide⟩

/-- C6, as the code has it, at a concrete input: four bytes that declare a
length of 4, received into a container with the reference codec, which rejects
buffers shorter than the header.  The call fails in `unpack` and the container
keeps its contents. -/
theorem recv_leaves_framing_to_unpack_witness :
    (demo_cam.handle = some 1 ∧
     4 ≤ first_count demo_cam (demo_usb [⟨0, [4, 0, 0, 0]⟩]) ∧
     declared_length (first_read demo_cam (demo_usb [⟨0, [4, 0, 0, 0]⟩])).2.2
       < default_length) ∧
    (recv_ptp_message spec_codec demo_cam (demo_usb [⟨0, [4, 0, 0, 0]⟩])
        (some demo_cmd)).thrown = some PTPError.unpack_failed ∧
    (recv_ptp_message spec_codec demo_cam (demo_usb [⟨0, [4, 0, 0, 0]⟩])
        (some demo_cmd)).out = some demo_cmd :=
  ⟨⟨rfl, by decide, by decide⟩,
    (recv_leaves_framing_to_unpack spec_codec demo_cam (demo_usb [⟨0, [4, 0, 0, 0]⟩])
      (some demo_cmd) 1 rfl (by decide)).2.2.2.2.2.2.2
      spec_unpack_short (by decide) (by simp)⟩

/-! ## C7: the second transport read -/

/-- No `recv_ptp_message` call makes more than two transport reads. -/
theorem recv_reads_le_two (codec : Codec) (cam : CameraBase) (w : USB)
    (out : Option PTPContainer) :
    (reads (recv_ptp_message codec cam w out).usb.trace).length
      ≤ (reads w.trace).length + 2 := by
  rw [recv_trace, reads_append, List.length_append]
  split_ifs <;> simp [reads, Event.is_read]

/-- On an open connection every `recv_ptp_message` call makes exactly one
transport read, the one for the 512-byte chunk: `size` is a single byte, so
the branch of line 180 that reads the rest is never taken. -/
theorem recv_reads_once (codec : Codec) (cam : CameraBase) (w : USB)
    (out : Option PTPContainer) (hd : Nat) (hopen : cam.handle = some hd) :
    (recv_ptp_message codec cam w out).usb.trace
      = w.trace ++ [Event.recv_ptp_message, Event.bulk_in cam.ep_in Dest.buffer 512] := by
  have hne : ¬ cam.handle = none := by rw [hopen]; simp
  rw [recv_trace, if_neg hne]
  split_ifs with h1 h2
  · rfl
  · rfl
  · exact absurd (declared_size_lt_chunk (first_buffer cam w)) h2

/-- C7. The rest of a long message is not read.  The device sends a Data
container of 600 bytes: the first read, a request for 512 bytes, transfers
`n = 512` bytes whose first four declare `L = 600`.  `L` exceeds `n`, yet the
call makes no second transport read: `size` is `0x58 = 88`, the first byte of
the length field, the 88 remaining bytes stay with the device, and `unpack` is
handed the first 88 bytes of the chunk. -/
theorem long_container_read_once :
    first_count demo_cam long_container_usb = 512 ∧
    declared_length (first_read demo_cam long_container_usb).2.2 = 600 ∧
    (recv_ptp_message spec_codec demo_cam long_container_usb (some demo_cmd)).usb.trace
      = [Event.recv_ptp_message, Event.bulk_in 129 Dest.buffer 512] ∧
    (recv_ptp_message spec_codec demo_cam long_container_usb (some demo_cmd)).usb.in_script
      = [⟨0, long_container_tail⟩] ∧
    declared_size (first_buffer demo_cam long_container_usb) = 88 ∧
    final_out_buf demo_cam long_container_usb = long_container_head.take 88 ∧
    (recv_ptp_message spec_codec demo_cam long_container_usb (some demo_cmd)).thrown
      = some PTPError.unpack_failed :=
  ⟨by decide, by decide, by decide, by decide, by decide, by decide, by decide⟩

/-! ## C8: the return codes of the transfers -/

theorem zero_codes_emit (w : USB) (e : Event) :
    (zero_codes w).emit e = zero_codes (w.emit e) := rfl

theorem zero_codes_new_bytes (w : USB) (n : Nat) :
    (zero_codes w).new_bytes n = (zero_codes (w.new_bytes n).1, (w.new_bytes n).2) := rfl

theorem zero_codes_bulk_in_world (w : USB) (ep : Nat) (d : Dest) (n : Int) :
    (libusb_bulk_in (zero_codes w) ep d n).1 = zero_codes (libusb_bulk_in w ep d n).1 := by
  cases h : w.in_script <;> simp [libusb_bulk_in, zero_codes, USB.emit, h]

theorem zero_codes_bulk_in_bytes (w : USB) (ep : Nat) (d : Dest) (n : Int) :
    (libusb_bulk_in (zero_codes w) ep d n).2.2 = (libusb_bulk_in w ep d n).2.2 := by
  cases h : w.in_script <;> simp [libusb_bulk_in, zero_codes, USB.emit, h]

theorem zero_codes_bulk_out_world (w : USB) (ep : Nat) (bytes : List Nat) (n : Int) :
    (libusb_bulk_out (zero_codes w) ep bytes n).1 = zero_codes (libusb_bulk_out w ep bytes n).1 := by
  cases h : w.out_script <;> simp [libusb_bulk_out, zero_codes, USB.emit, h]

theorem zero_codes_first_read_world (cam : CameraBase) (w : USB) :
    (first_read cam (zero_codes w)).1 = zero_codes (first_read cam w).1 := by
  unfold first_read
  rw [zero_codes_emit, zero_codes_new_bytes, zero_codes_bulk_in_world]

theorem zero_codes_first_read_bytes (cam : CameraBase) (w : USB) :
    (first_read cam (zero_codes w)).2.2 = (first_read cam w).2.2 := by
  unfold first_read
  rw [zero_codes_emit, zero_codes_new_bytes, zero_codes_bulk_in_bytes]

theorem zero_codes_first_count (cam : CameraBase) (w : USB) :
    first_count cam (zero_codes w) = first_count cam w := by
  unfold first_count
  rw [zero_codes_first_read_bytes]

theorem zero_codes_first_buffer (cam : CameraBase) (w : USB) :
    first_buffer cam (zero_codes w) = first_buffer cam w := by
  unfold first_buffer
  rw [zero_codes_first_read_bytes, zero_codes_emit, zero_codes_new_bytes]

theorem zero_codes_second_read_world (cam : CameraBase) (w : USB) :
    (second_read cam (zero_codes w)).1 = zero_codes (second_read cam w).1 := by
  unfold second_read
  rw [zero_codes_first_buffer, zero_codes_first_read_world, zero_codes_new_bytes,
    zero_codes_bulk_in_world]

theorem zero_codes_second_read_bytes (cam : CameraBase) (w : USB) :
    (second_read cam (zero_codes w)).2.2 = (second_read cam w).2.2 := by
  unfold second_read
  rw [zero_codes_first_buffer, zero_codes_first_read_world, zero_codes_new_bytes,
    zero_codes_bulk_in_bytes]

theorem zero_codes_final_out_buf (cam : CameraBase) (w : USB) :
    final_out_buf cam (zero_codes w) = final_out_buf cam w := by
  unfold final_out_buf
  simp only [zero_codes_first_buffer, zero_codes_first_read_world, zero_codes_new_bytes,
    zero_codes_second_read_bytes]

/-- A receive does the same whatever the return codes are. -/
theorem recv_zero_codes (codec : Codec) (cam : CameraBase) (w : USB) (out : Option PTPContainer) :
    recv_ptp_message codec cam (zero_codes w) out =
      ⟨zero_codes (recv_ptp_message codec cam w out).usb,
        (recv_ptp_message codec cam w out).out, (recv_ptp_message codec cam w out).thrown⟩ := by
  cases h : cam.handle with
  | none =>
    rw [recv_not_open codec cam w out h, recv_not_open codec cam (zero_codes w) out h]
    rfl
  | some hd =>
    by_cases hs : first_count cam w < 4
    · have hs0 : first_count cam (zero_codes w) < 4 := by rw [zero_codes_first_count]; exact hs
      rw [recv_short codec cam w out hd h hs, recv_short codec cam (zero_codes w) out hd h hs0,
        zero_codes_first_read_world]
    · have hs0 : ¬ first_count cam (zero_codes w) < 4 := by
        rw [zero_codes_first_count]; exact hs
      by_cases hlt : declared_size (first_buffer cam w) < 512
      · have hlt0 : declared_size (first_buffer cam (zero_codes w)) < 512 := by
          rw [zero_codes_first_buffer]; exact hlt
        rw [recv_small codec cam w out hd h hs hlt,
          recv_small codec cam (zero_codes w) out hd h hs0 hlt0,
          zero_codes_final_out_buf, zero_codes_first_buffer, zero_codes_first_read_world,
          zero_codes_new_bytes]
      · have hlt0 : ¬ declared_size (first_buffer cam (zero_codes w)) < 512 := by
          rw [zero_codes_first_buffer]; exact hlt
        rw [recv_large codec cam w out hd h hs hlt,
          recv_large codec cam (zero_codes w) out hd h hs0 hlt0,
          zero_codes_final_out_buf, zero_codes_second_read_world]

/-- The write phase does the same whatever the return codes are. -/
theorem send_zero_codes (codec : Codec) (cam : CameraBase) (w : USB) (cmd : PTPContainer)
    (data : Option PTPContainer) :
    ptp_transaction_send codec cam (zero_codes w) cmd data =
      ⟨(ptp_transaction_send codec cam w cmd data).cam,
        zero_codes (ptp_transaction_send codec cam w cmd data).usb,
        (ptp_transaction_send codec cam w cmd data).cmd,
        (ptp_transaction_send codec cam w cmd data).data,
        (ptp_transaction_send codec cam w cmd data).thrown⟩ := by
  cases h : cam.handle with
  | none =>
    rw [send_not_open codec cam w cmd data h, send_not_open codec cam (zero_codes w) cmd data h]
  | some hd =>
    cases data with
    | none =>
      rw [send_open_none codec cam w cmd hd h, send_open_none codec cam (zero_codes w) cmd hd h,
        zero_codes_bulk_out_world]
    | some d =>
      rw [send_open_some codec cam w cmd d hd h,
        send_open_some codec cam (zero_codes w) cmd d hd h,
        zero_codes_bulk_out_world, zero_codes_bulk_out_world]

/-- The read phase does the same whatever the return codes are. -/
theorem receive_zero_codes (codec : Codec) (cam : CameraBase) (w : USB) (receiving : Bool)
    (out_resp out_data : Option PTPContainer) :
    ptp_transaction_receive codec cam (zero_codes w) receiving out_resp out_data =
      ⟨zero_codes (ptp_transaction_receive codec cam w receiving out_resp out_data).usb,
        (ptp_transaction_receive codec cam w receiving out_resp out_data).out_resp,
        (ptp_transaction_receive codec cam w receiving out_resp out_data).out_data,
        (ptp_transaction_receive codec cam w receiving out_resp out_data).thrown⟩ := by
  unfold ptp_transaction_receive ptp_transaction_read_anyway
  simp only [recv_zero_codes]
  split
  · split
    · rfl
    · split
      · split <;> rfl
      · split <;> rfl
  · rfl

/-- `ptp_transaction` drops the return code of every bulk transfer: the call ends (normally or by an exception), stamps and fills
the containers and makes the transfers exactly as it does when every transfer
returns `0`. -/
theorem return_codes_have_no_effect (codec : Codec) (cam : CameraBase) (w : USB)
    (cmd : PTPContainer) (data : Option PTPContainer) (receiving : Bool)
    (out_resp out_data : Option PTPContainer) :
    (ptp_transaction codec cam w cmd data receiving out_resp out_data).thrown
      = (ptp_transaction codec cam (zero_codes w) cmd data receiving out_resp out_data).thrown ∧
    (ptp_transaction codec cam w cmd data receiving out_resp out_data).out_resp
      = (ptp_transaction codec cam (zero_codes w) cmd data receiving out_resp out_data).out_resp ∧
    (ptp_transaction codec cam w cmd data receiving out_resp out_data).out_data
      = (ptp_transaction codec cam (zero_codes w) cmd data receiving out_resp out_data).out_data ∧
    (ptp_transaction codec cam w cmd data receiving out_resp out_data).cmd
      = (ptp_transaction codec cam (zero_codes w) cmd data receiving out_resp out_data).cmd ∧
    (ptp_transaction codec cam w cmd data receiving out_resp out_data).data
      = (ptp_transaction codec cam (zero_codes w) cmd data receiving out_resp out_data).data ∧
    (ptp_transaction codec cam w cmd data receiving out_resp out_data).cam
      = (ptp_transaction codec cam (zero_codes w) cmd data receiving out_resp out_data).cam ∧
    (ptp_transaction codec cam w cmd data receiving out_resp out_data).usb.trace
      = (ptp_transaction codec cam (zero_codes w) cmd data receiving out_resp
          out_data).usb.trace := by
  have key : ptp_transaction codec cam (zero_codes w) cmd data receiving out_resp out_data =
      ⟨(ptp_transaction codec cam w cmd data receiving out_resp out_data).cam,
        zero_codes (ptp_transaction codec cam w cmd data receiving out_resp out_data).usb,
        (ptp_transaction codec cam w cmd data receiving out_resp out_data).cmd,
        (ptp_transaction codec cam w cmd data receiving out_resp out_data).data,
        (ptp_transaction codec cam w cmd data receiving out_resp out_data).out_resp,
        (ptp_transaction codec cam w cmd data receiving out_resp out_data).out_data,
        (ptp_transaction codec cam w cmd data receiving out_resp out_data).thrown⟩ := by
    unfold ptp_transaction
    simp only [send_zero_codes, receive_zero_codes]
    split <;> rfl
  rw [key]
  exact ⟨rfl, rfl, rfl, rfl, rfl, rfl, rfl⟩

/-- C8. Transport failures are not surfaced.  On an open connection the
command is written, the write of the data container returns
`LIBUSB_ERROR_TIMEOUT` (-7), and the device then answers with the Response
`0x2002`.  `send_ptp_message` hands the code -7 to `ptp_transaction`, which
returns normally all the same: nothing is thrown, `out_resp` is filled, and
`usb_error` still reads 0. -/
theorem failed_write_not_reported :
    demo_cam.handle = some 1 ∧
    (send_ptp_message spec_codec demo_cam
        (send_ptp_message spec_codec demo_cam failing_usb demo_cmd).1
        demo_data_out).2 = Except.ok (-7) ∧
    (ptp_transaction spec_codec demo_cam failing_usb demo_cmd (some demo_data_out) false
        (some demo_cmd) none).thrown = none ∧
    (ptp_transaction spec_codec demo_cam failing_usb demo_cmd (some demo_data_out) false
        (some demo_cmd) none).out_resp = some demo_error_response ∧
    (ptp_transaction spec_codec demo_cam failing_usb demo_cmd (some demo_data_out) false
        (some demo_cmd) none).cam.usb_error = 0 ∧
    writes (ptp_transaction spec_codec demo_cam failing_usb demo_cmd (some demo_data_out) false
        (some demo_cmd) none).usb.trace
      = [Event.bulk_out 2 (spec_pack demo_cmd) 12,
         Event.bulk_out 2 (spec_pack demo_data_out) 17] :=
  ⟨rfl, rfl, by decide, by decide, by decide, by decide⟩

/-! ## C9: the reply after a data phase -/

/-- C9, as the code has it.  In a `ptp_transaction` call with `receiving` true
whose first received container `d` has kind Data (and is copied to `out_data`
without failure), one further container is read and stored in `out_resp`
without any check of its kind: whenever that read returns a container `c`, the
call returns normally with `c` in `out_resp`, after exactly two entries into
`recv_ptp_message`. -/
theorem reply_after_data_unchecked (codec : Codec) (cam : CameraBase) (w : USB)
    (cmd : PTPContainer) (data out_data : Option PTPContainer) (resp0 d c : PTPContainer)
    (hreturns : (first_recv codec cam w cmd data).thrown = none)
    (hfirst : (first_recv codec cam w cmd data).out = some d)
    (hkind : d.type = CONTAINER_TYPE_DATA)
    (hcopy : (unpack_into codec out_data (codec.pack d)).2 = none)
    (hreturns2 : (second_recv codec cam w cmd data (some resp0)).thrown = none)
    (hsecond : (second_recv codec cam w cmd data (some resp0)).out = some c) :
    (ptp_transaction codec cam w cmd data true (some resp0) out_data).thrown = none ∧
    (ptp_transaction codec cam w cmd data true (some resp0) out_data).out_resp = some c ∧
    recv_calls (ptp_transaction codec cam w cmd data true (some resp0) out_data).usb.trace
      = recv_calls w.trace + 2 := by
  obtain ⟨hd, hopen⟩ := recv_ok_open codec _ _ _ hreturns
  rw [send_cam, get_and_increment_handle] at hopen
  unfold second_recv at hreturns2 hsecond
  unfold first_recv at hreturns hfirst hreturns2 hsecond
  rw [ptp_transaction_open codec cam w cmd data true (some resp0) out_data hd hopen,
    receive_data codec _ _ (some resp0) out_data d hreturns hfirst hkind hcopy]
  refine ⟨hreturns2, hsecond, ?_⟩
  simp only [recv_calls_recv, recv_calls_send]

/-- C9 fails as stated: the device sends a Data container and then a second
Data container instead of a Response.  The call returns normally and the
second Data container is in `out_resp`. -/
theorem data_reply_stored_as_response :
    (first_recv spec_codec demo_cam
        (demo_usb [⟨0, spec_pack demo_data_in⟩, ⟨0, spec_pack demo_data_out⟩]) demo_cmd
        none).out = some demo_data_in ∧
    demo_data_in.type = CONTAINER_TYPE_DATA ∧
    (ptp_transaction spec_codec demo_cam
        (demo_usb [⟨0, spec_pack demo_data_in⟩, ⟨0, spec_pack demo_data_out⟩]) demo_cmd
        none true (some demo_cmd) (some demo_cmd)).thrown = none ∧
    (ptp_transaction spec_codec demo_cam
        (demo_usb [⟨0, spec_pack demo_data_in⟩, ⟨0, spec_pack demo_data_out⟩]) demo_cmd
        none true (some demo_cmd) (some demo_cmd)).out_resp = some demo_data_out ∧
    demo_data_out.type ≠ CONTAINER_TYPE_RESPONSE :=
  ⟨by decide, by decide, by decide, by decide, by decide⟩

/-- C9, as the code has it, at a concrete input: command with outgoing data,
the device sends a Data container and then an Event. -/
theorem reply_after_data_unchecked_witness :
    ((first_recv spec_codec demo_cam
        (demo_usb [⟨0, spec_pack demo_data_in⟩, ⟨0, spec_pack demo_event⟩]) demo_cmd
        (some demo_data_out)).thrown = none ∧
     (first_recv spec_codec demo_cam
        (demo_usb [⟨0, spec_pack demo_data_in⟩, ⟨0, spec_pack demo_event⟩]) demo_cmd
        (some demo_data_out)).out = some demo_data_in ∧
     demo_data_in.type = CONTAINER_TYPE_DATA ∧
     (unpack_into spec_codec (some demo_cmd) (spec_codec.pack demo_data_in)).2 = none ∧
     (second_recv spec_codec demo_cam
        (demo_usb [⟨0, spec_pack demo_data_in⟩, ⟨0, spec_pack demo_event⟩]) demo_cmd
        (some demo_data_out) (some demo_cmd)).thrown = none ∧
     (second_recv spec_codec demo_cam
        (demo_usb [⟨0, spec_pack demo_data_in⟩, ⟨0, spec_pack demo_event⟩]) demo_cmd
        (some demo_data_out) (some demo_cmd)).out = some demo_event) ∧
    (ptp_transaction spec_codec demo_cam
        (demo_usb [⟨0, spec_pack demo_data_in⟩, ⟨0, spec_pack demo_event⟩]) demo_cmd
        (some demo_data_out) true (some demo_cmd) (some demo_cmd)).thrown = none ∧
    (ptp_transaction spec_codec demo_cam
        (demo_usb [⟨0, spec_pack demo_data_in⟩, ⟨0, spec_pack demo_event⟩]) demo_cmd
        (some demo_data_out) true (some demo_cmd) (some demo_cmd)).out_resp
      = some demo_event ∧
    recv_calls (ptp_transaction spec_codec demo_cam
        (demo_usb [⟨0, spec_pack demo_data_in⟩, ⟨0, spec_pack demo_event⟩]) demo_cmd
        (some demo_data_out) true (some demo_cmd) (some demo_cmd)).usb.trace
      = recv_calls (demo_usb [⟨0, spec_pack demo_data_in⟩,
          ⟨0, spec_pack demo_event⟩]).trace + 2 :=
  ⟨⟨by decide, by decide, by decide, by decide, by decide, by decide⟩,
    reply_after_data_unchecked spec_codec demo_cam
      (demo_usb [⟨0, spec_pack demo_data_in⟩, ⟨0, spec_pack demo_event⟩]) demo_cmd
      (some demo_data_out) (some demo_cmd) demo_cmd demo_data_in demo_event
      (by decide) (by decide) (by decide) (by decide) (by decide) (by decide)⟩

/-! ## C10: the order of the writes -/

theorem continues_refl (t : List Event) : continues_without_write t t :=
  ⟨[], by simp, rfl⟩

theorem continues_trans (t1 t2 t3 : List Event) (h12 : continues_without_write t1 t2)
    (h23 : continues_without_write t2 t3) : continues_without_write t1 t3 := by
  obtain ⟨r1, e1, w1⟩ := h12
  obtain ⟨r2, e2, w2⟩ := h23
  refine ⟨r1 ++ r2, ?_, ?_⟩
  · rw [e2, e1, List.append_assoc]
  · rw [writes_append, w1, w2]; rfl

theorem recv_continues (codec : Codec) (cam : CameraBase) (w : USB) (out : Option PTPContainer) :
    continues_without_write w.trace (recv_ptp_message codec cam w out).usb.trace := by
  refine ⟨_, recv_trace codec cam w out, ?_⟩
  split_ifs <;> simp [writes, Event.is_write]

/-- The read phase makes no bulk OUT transfer. -/
theorem receive_continues (codec : Codec) (cam : CameraBase) (w : USB) (receiving : Bool)
    (out_resp out_data : Option PTPContainer) :
    continues_without_write w.trace
      (ptp_transaction_receive codec cam w receiving out_resp out_data).usb.trace := by
  have h1 := recv_continues codec cam w (some codec.empty)
  have h2 := fun o => recv_continues codec cam
    (recv_ptp_message codec cam w (some codec.empty)).usb o
  unfold ptp_transaction_receive ptp_transaction_read_anyway
  dsimp only
  split
  · split
    · exact h1
    · split
      · split
        · exact h1
        · exact continues_trans _ _ _ h1 (h2 _)
      · split
        · exact h1
        · exact continues_trans _ _ _ h1 (h2 _)
  · exact recv_continues codec cam w out_resp

/-- C10. Command and data share one transaction and are sent in order.  On an
open connection, the id allocated for the call is stamped into `cmd` and, when
`data` is not `NULL`, into `data`; the bytes written are the packed stamped
containers; the trace of the call is the command write, then the data write
when there is a data container, then events that contain no write (so both
writes precede every transport read); with `data` `NULL` exactly one write is
made. -/
theorem command_then_data_writes (codec : Codec) (cam : CameraBase) (w : USB)
    (cmd : PTPContainer) (data : Option PTPContainer) (receiving : Bool)
    (out_resp out_data : Option PTPContainer) (hd : Nat) (hopen : cam.handle = some hd) :
    (ptp_transaction codec cam w cmd data receiving out_resp out_data).cmd
      = { cmd with transaction_id := to_uint32 (get_and_increment_transaction_id cam).2 } ∧
    (∀ d, data = some d →
      (ptp_transaction codec cam w cmd data receiving out_resp out_data).data
        = some { d with transaction_id :=
            (ptp_transaction codec cam w cmd data receiving out_resp out_data).cmd.transaction_id } ∧
      continues_without_write
        (w.trace ++
          [Event.bulk_out cam.ep_out
            (codec.pack (ptp_transaction codec cam w cmd data receiving out_resp out_data).cmd)
            (to_int (codec.get_length
              (ptp_transaction codec cam w cmd data receiving out_resp out_data).cmd)),
           Event.bulk_out cam.ep_out
            (codec.pack { d with transaction_id :=
              (ptp_transaction codec cam w cmd data receiving out_resp
                out_data).cmd.transaction_id })
            (to_int (codec.get_length { d with transaction_id :=
              (ptp_transaction codec cam w cmd data receiving out_resp
                out_data).cmd.transaction_id }))])
        (ptp_transaction codec cam w cmd data receiving out_resp out_data).usb.trace) ∧
    (data = none →
      continues_without_write
        (w.trace ++
          [Event.bulk_out cam.ep_out
            (codec.pack (ptp_transaction codec cam w cmd data receiving out_resp out_data).cmd)
            (to_int (codec.get_length
              (ptp_transaction codec cam w cmd data receiving out_resp out_data).cmd))])
        (ptp_transaction codec cam w cmd data receiving out_resp out_data).usb.trace ∧
      (writes (ptp_transaction codec cam w cmd data receiving out_resp out_data).usb.trace).length
        = (writes w.trace).length + 1) := by
  refine ⟨ptp_transaction_cmd codec cam w cmd data receiving out_resp out_data, ?_, ?_⟩
  · intro d hdata
    subst hdata
    rw [ptp_transaction_open codec cam w cmd (some d) receiving out_resp out_data hd hopen]
    dsimp only
    have hrx := receive_continues codec (ptp_transaction_send codec cam w cmd (some d)).cam
      (ptp_transaction_send codec cam w cmd (some d)).usb receiving out_resp out_data
    rw [send_open_some codec cam w cmd d hd hopen] at hrx ⊢
    refine ⟨rfl, ?_⟩
    simpa [libusb_bulk_out, USB.emit] using hrx
  · intro hdata
    subst hdata
    rw [ptp_transaction_open codec cam w cmd none receiving out_resp out_data hd hopen]
    dsimp only
    have hrx := receive_continues codec (ptp_transaction_send codec cam w cmd none).cam
      (ptp_transaction_send codec cam w cmd none).usb receiving out_resp out_data
    rw [send_open_none codec cam w cmd hd hopen] at hrx ⊢
    have hrx2 : continues_without_write
        (w.trace ++ [Event.bulk_out cam.ep_out
          (codec.pack { cmd with transaction_id := to_uint32 (get_and_increment_transaction_id cam).2 })
          (to_int (codec.get_length
            { cmd with transaction_id := to_uint32 (get_and_increment_transaction_id cam).2 }))])
        (ptp_transaction_receive codec (get_and_increment_transaction_id cam).1
          (libusb_bulk_out w cam.ep_out
            (codec.pack { cmd with transaction_id := to_uint32 (get_and_increment_transaction_id cam).2 })
            (to_int (codec.get_length
              { cmd with transaction_id := to_uint32 (get_and_increment_transaction_id cam).2 }))).1
          receiving out_resp out_data).usb.trace := by
      simpa [libusb_bulk_out, USB.emit] using hrx
    refine ⟨hrx2, ?_⟩
    obtain ⟨rest, hrest, hw⟩ := hrx2
    rw [hrest, writes_append, writes_append, hw]
    simp [writes, Event.is_write]

/-- C10 at a concrete input: command `0x1001` with the data "hello" on a
connection whose counter stands at 0; the device answers with a Response. -/
theorem command_then_data_writes_witness :
    demo_cam.handle = some 1 ∧
    (ptp_transaction spec_codec demo_cam (demo_usb [⟨0, spec_pack demo_response⟩]) demo_cmd
        (some demo_data_out) false (some demo_cmd) none).cmd
      = { demo_cmd with
          transaction_id := to_uint32 (get_and_increment_transaction_id demo_cam).2 } ∧
    (ptp_transaction spec_codec demo_cam (demo_usb [⟨0, spec_pack demo_response⟩]) demo_cmd
        (some demo_data_out) false (some demo_cmd) none).data
      = some { demo_data_out with transaction_id :=
          (ptp_transaction spec_codec demo_cam (demo_usb [⟨0, spec_pack demo_response⟩])
            demo_cmd (some demo_data_out) false (some demo_cmd) none).cmd.transaction_id } ∧
    (ptp_transaction spec_codec demo_cam (demo_usb [⟨0, spec_pack demo_response⟩]) demo_cmd
        (some demo_data_out) false (some demo_cmd) none).usb.trace
      = [Event.bulk_out 2 (spec_pack demo_cmd) 12,
         Event.bulk_out 2 (spec_pack demo_data_out) 17,
         Event.recv_ptp_message, Event.bulk_in 129 Dest.buffer 512] :=
  ⟨rfl,
    (command_then_data_writes spec_codec demo_cam (demo_usb [⟨0, spec_pack demo_response⟩])
      demo_cmd (some demo_data_out) false (some demo_cmd) none 1 rfl).1,
    ((command_then_data_writes spec_codec demo_cam (demo_usb [⟨0, spec_pack demo_response⟩])
      demo_cmd (some demo_data_out) false (some demo_cmd) none 1 rfl).2.1
      demo_data_out rfl).1,
    by decide⟩

/-! ## C11: `close` -/

/-- On an object whose interface pointer is set whenever its handle is,
`close` returns true and leaves the handle `NULL`; it touches neither the
counter nor the endpoint addresses; on a `NULL` handle it does nothing, on an
open one it calls `libusb_release_interface` and `libusb_close`, once each (the
interface number passed is the one found in the dead frame of `open`); a
second `close` changes nothing and makes no further libusb call. -/
theorem close_with_interface_set (cam : CameraBase) (w : USB)
    (hintf : cam.handle ≠ none → cam.intf ≠ none) :
    (close cam w).ending = Ending.returned true ∧
    (close cam w).cam.handle = none ∧
    (close cam w).cam._transaction_id = cam._transaction_id ∧
    (close cam w).cam.ep_in = cam.ep_in ∧
    (close cam w).cam.ep_out = cam.ep_out ∧
    (cam.handle = none → (close cam w).usb.trace = w.trace) ∧
    (∀ h, cam.handle = some h →
      (close cam w).usb.trace
        = w.trace ++ [Event.release_interface h w.dead_frame_number, Event.close_handle h]) ∧
    (close (close cam w).cam (close cam w).usb).cam = (close cam w).cam ∧
    (close (close cam w).cam (close cam w).usb).usb = (close cam w).usb ∧
    (close (close cam w).cam (close cam w).usb).ending = (close cam w).ending := by
  cases hh : cam.handle with
  | none =>
    have hc : close cam w = ⟨cam, w, Ending.returned true⟩ := by
      simp only [close, hh]
    rw [hc]
    simp only [hc]
    simp [hh]
  | some h =>
    cases hi : cam.intf with
    | none => exact absurd hi (hintf (by rw [hh]; simp))
    | some i =>
      have hc : close cam w = ⟨{ cam with handle := none },
          (w.emit (Event.release_interface h w.dead_frame_number)).emit (Event.close_handle h),
          Ending.returned true⟩ := by
        simp only [close, hh, hi]
      have hc2 : ∀ w2, close { cam with handle := none } w2
          = ⟨{ cam with handle := none }, w2, Ending.returned true⟩ := by
        intro w2
        simp only [close]
      rw [hc]
      simp only [hc2]
      simp [USB.emit]

/-- C11. `close` is not unconditional.  `open` on a freshly constructed object
and a device whose active configuration cannot be read returns false with the
handle set and `intf` still `NULL` (lines 278-291).  In that state `close`
passes the test `handle != NULL` and reads `this->intf->bInterfaceNumber`
through the `NULL` pointer: it does not return true, the handle is not reset
and neither `libusb_release_interface` nor `libusb_close` is reached. -/
theorem close_after_failed_open :
    («open» fresh_cam (demo_usb []) unconfigured_device).ending = Ending.returned false ∧
    («open» fresh_cam (demo_usb []) unconfigured_device).cam.handle = some 7 ∧
    («open» fresh_cam (demo_usb []) unconfigured_device).cam.intf = none ∧
    (close («open» fresh_cam (demo_usb []) unconfigured_device).cam
        («open» fresh_cam (demo_usb []) unconfigured_device).usb).ending
      = Ending.null_dereference ∧
    (close («open» fresh_cam (demo_usb []) unconfigured_device).cam
        («open» fresh_cam (demo_usb []) unconfigured_device).usb).cam.handle = some 7 ∧
    (close («open» fresh_cam (demo_usb []) unconfigured_device).cam
        («open» fresh_cam (demo_usb []) unconfigured_device).usb).usb.trace
      = [Event.open_device] :=
  ⟨by decide, by decide, by decide, by decide, by decide, by decide⟩

/-- After a successful `open` on `demo_device`, in an environment whose dead
frame reads as 0, `close` returns true, calls `libusb_release_interface` with
that number and `libusb_close` on handle 7, and a second `close` adds
nothing. -/
theorem close_after_open_example :
    («open» fresh_cam (demo_usb []) demo_device).ending = Ending.returned true ∧
    (close («open» fresh_cam (demo_usb []) demo_device).cam
        («open» fresh_cam (demo_usb []) demo_device).usb).ending = Ending.returned true ∧
    (close («open» fresh_cam (demo_usb []) demo_device).cam
        («open» fresh_cam (demo_usb []) demo_device).usb).usb.trace
      = [Event.open_device, Event.claim_interface 7 0,
         Event.release_interface 7 (demo_usb []).dead_frame_number, Event.close_handle 7] ∧
    (close
        (close («open» fresh_cam (demo_usb []) demo_device).cam
          («open» fresh_cam (demo_usb []) demo_device).usb).cam
        (close («open» fresh_cam (demo_usb []) demo_device).cam
          («open» fresh_cam (demo_usb []) demo_device).usb).usb).usb.trace
      = [Event.open_device, Event.claim_interface 7 0,
         Event.release_interface 7 (demo_usb []).dead_frame_number, Event.close_handle 7] :=
  ⟨by decide, by decide, by decide, by decide⟩

/-! ## C12: endpoint selection in `open` -/

theorem scan_endpoints_concat (cam : CameraBase) (l : List libusb_endpoint_descriptor)
    (e : libusb_endpoint_descriptor) :
    open_scan_endpoints cam (l ++ [e]) = open_scan_endpoint (open_scan_endpoints cam l) e := by
  simp [open_scan_endpoints, List.foldl_append]

/-- What the endpoint loop computes as written: `ep_in` is the address of the
last endpoint with an odd address and bulk transfer type, whatever its
direction bit; `ep_out` is the address of the last endpoint that fails that
test and has direction OUT; each keeps its value when there is no such
endpoint. -/
theorem scan_selects_odd_bulk (cam : CameraBase) (endpoints : List libusb_endpoint_descriptor) :
    (open_scan_endpoints cam endpoints).ep_in
      = ((endpoints.filter odd_and_bulk).getLast?.map (fun e => e.bEndpointAddress)).getD
          cam.ep_in ∧
    (open_scan_endpoints cam endpoints).ep_out
      = ((endpoints.filter (fun e => !odd_and_bulk e && is_out e)).getLast?.map
          (fun e => e.bEndpointAddress)).getD cam.ep_out := by
  induction endpoints using List.reverseRecOn with
  | nil => simp [open_scan_endpoints]
  | append_singleton l e ih =>
    rw [scan_endpoints_concat, List.filter_append, List.filter_append]
    unfold open_scan_endpoint
    have hmask : (if LIBUSB_ENDPOINT_DIR_MASK = LIBUSB_ENDPOINT_IN then 1 else 0) = 1 := by
      decide
    rw [hmask]
    by_cases h1 : (e.bEndpointAddress &&& 1) ≠ 0 ∧
        (e.bmAttributes &&& LIBUSB_TRANSFER_TYPE_MASK) = LIBUSB_TRANSFER_TYPE_BULK
    · have ho : odd_and_bulk e = true := by
        simp only [odd_and_bulk, decide_eq_true_eq]; exact h1
      rw [if_pos h1]
      simp [ho, ih.2]
    · have ho : odd_and_bulk e = false := by
        simp only [odd_and_bulk, decide_eq_false_iff_not]; exact h1
      rw [if_neg h1]
      by_cases h2 : (e.bEndpointAddress &&& LIBUSB_ENDPOINT_DIR_MASK) = LIBUSB_ENDPOINT_OUT
      · have hout : is_out e = true := by
          simp only [is_out, decide_eq_true_eq]; exact h2
        rw [if_pos h2]
        simp [ho, hout, ih.1]
      · have hout : is_out e = false := by
          simp only [is_out, decide_eq_false_iff_not]; exact h2
        rw [if_neg h2]
        simp [ho, hout, ih.1, ih.2]

/-- C12. Endpoint selection does not go by direction.  `open` on a freshly
constructed object and a device whose PTP interface has the endpoints bulk OUT
`0x01`, bulk IN `0x82`, interrupt IN `0x83` returns true with `ep_in = 0x01`,
the address of the OUT endpoint, and `ep_out = 0`; selection by direction gives
`ep_in = 0x82` and `ep_out = 0x01`. -/
theorem ep_in_set_to_out_endpoint :
    («open» fresh_cam (demo_usb []) odd_out_device).ending = Ending.returned true ∧
    («open» fresh_cam (demo_usb []) odd_out_device).cam.intf
      = some { bInterfaceNumber := 0, bInterfaceClass := 6, endpoint := odd_out_endpoints } ∧
    («open» fresh_cam (demo_usb []) odd_out_device).cam.ep_in = 1 ∧
    («open» fresh_cam (demo_usb []) odd_out_device).cam.ep_out = 0 ∧
    (open_scan_endpoints fresh_cam odd_out_endpoints).ep_in = 1 ∧
    (open_scan_endpoints fresh_cam odd_out_endpoints).ep_out = 0 ∧
    expected_ep_in odd_out_endpoints = 130 ∧
    expected_ep_out odd_out_endpoints = 1 ∧
    is_out ⟨1, 2⟩ = true ∧ is_bulk_in ⟨1, 2⟩ = false :=
  ⟨by decide, by decide, by decide, by decide, by decide, by decide, by decide, by decide,
    by decide, by decide⟩

/-- On `demo_device` (bulk IN `0x81`, bulk OUT `0x02`, interrupt IN `0x83`) the
loop as written and selection by direction agree. -/
theorem scan_agrees_on_demo_device :
    («open» fresh_cam (demo_usb []) demo_device).cam.ep_in = 129 ∧
    («open» fresh_cam (demo_usb []) demo_device).cam.ep_out = 2 ∧
    expected_ep_in demo_interface.endpoint = 129 ∧
    expected_ep_out demo_interface.endpoint = 2 :=
  ⟨by decide, by decide, by decide, by decide⟩

end PTP
